import Mathlib

/-!
# Customer management: a shallow embedding of `server/index.js` and the client views

The request handlers of `server/index.js` are embedded as pure functions over an
explicit store state, its route table as a list of routes, and the form validation
and the requests of the client pages as functions on the form state.  The SQLite engine and the `sqlite3` driver are not part of
the repository; the statements the handlers issue are interpreted by a small
executable model of the documented engine behaviour that the handlers rely on
(`LIKE`, `ORDER BY`, `LIMIT`/`OFFSET`, `UNIQUE`, `AUTOINCREMENT`, foreign keys).

Conventions of the embedding:
* request body fields are optional text (`none` is an absent or `null` key), as in
  the data model, where every column filled from a body is `TEXT`;
* `page`, `limit` and path ids arrive as URL text; the embedding covers text that is
  a plain decimal integer and text that is not numeric at all (`UrlValue`);
* `sortBy` and `sortOrder` are restricted to the column names and the two direction
  keywords (the source splices any text into the statement);
* JavaScript numbers are doubles with an integer value, `NaN` or an infinity: decimal
  text and the results of `-` and `*` are rounded to the nearest double, and the
  engine takes only 64-bit integers in `LIMIT` and `OFFSET`;
* row ids are unbounded naturals.
-/

namespace Qwipo

/-! ## JavaScript values -/

/-- A JavaScript number as far as the handlers can produce one: a double with an
integer value, `NaN` or an infinity. -/
inductive JSNum where
  | int (i : Int)
  | nan
  | posInf
  | negInf
  deriving DecidableEq, Repr

/-- Text of a URL query or path value that a handler uses as a number: a plain
decimal integer, or text `s` that is not numeric at all (such as `abc`).  Empty
text, fractions, exponents, hexadecimal and padded numerals are outside the model. -/
inductive UrlValue where
  | int (i : Int)
  | nonNumeric (s : String)
  deriving DecidableEq, Repr

/-- A value of `req.query` after destructuring with a numeric default: the default
itself is a number, a supplied value is text. -/
inductive JSVal where
  | number (n : JSNum)
  | string (u : UrlValue)
  deriving DecidableEq, Repr

/-- Number of low bits a natural number loses when it is rounded to the 53-bit
significand of a double: the least `e` (within the fuel) with `n / 2 ^ e < 2 ^ 53`. -/
def excessBits : Nat → Nat → Nat
  | 0, _ => 0
  | fuel + 1, n => if n < 9007199254740992 then 0 else excessBits fuel (n / 2) + 1

/-- The natural number a double holds for `n`: `n` rounded to 53 significant bits,
to the nearest such number and to the even one on a tie. -/
def roundNat (n : Nat) : Nat :=
  let e := excessBits 1100 n
  let q := n / 2 ^ e
  let r := n % 2 ^ e
  if 2 ^ e < 2 * r ∨ (2 * r = 2 ^ e ∧ q % 2 = 1) then (q + 1) * 2 ^ e else q * 2 ^ e

/-- The least magnitude that is too large for a double, `2 ^ 1024`. -/
def doubleOverflow : Nat := 2 ^ 256 * 2 ^ 256 * 2 ^ 256 * 2 ^ 256

/-- The JavaScript number for the mathematical integer `i`: the nearest double, an
infinity beyond the range of doubles. -/
def toDouble (i : Int) : JSNum :=
  if doubleOverflow ≤ roundNat i.natAbs then (if 0 < i then .posInf else .negInf)
  else if 0 ≤ i then .int (roundNat i.natAbs)
  else .int (-(roundNat i.natAbs : Int))

/-- The numeric coercion applied by `-`, `*` and `/`: decimal text becomes the
nearest double. -/
def JSVal.toNumber : JSVal → JSNum
  | .number n => n
  | .string (.int i) => toDouble i
  | .string (.nonNumeric _) => .nan

/-- Embedding of `parseInt(v)`: decimal text becomes the nearest double.  As a
number only the defaults 1 and 10 reach it. -/
def parseInt : JSVal → JSNum
  | .number (.int i) => .int i
  | .number _ => .nan
  | .string (.int i) => toDouble i
  | .string (.nonNumeric _) => .nan

/-- Subtraction `a - b` on numbers: the exact difference rounded to a double. -/
def JSNum.sub : JSNum → JSNum → JSNum
  | .int a, .int b => toDouble (a - b)
  | .posInf, .int _ => .posInf
  | .posInf, .negInf => .posInf
  | .negInf, .int _ => .negInf
  | .negInf, .posInf => .negInf
  | .int _, .posInf => .negInf
  | .int _, .negInf => .posInf
  | _, _ => .nan

/-- The sign rule of a product with an infinite factor. -/
def JSNum.signed (positive : Bool) : JSNum :=
  if positive then .posInf else .negInf

/-- Multiplication `a * b` on numbers: the exact product rounded to a double. -/
def JSNum.mul : JSNum → JSNum → JSNum
  | .int a, .int b => toDouble (a * b)
  | .posInf, .int b => if b = 0 then .nan else JSNum.signed (decide (0 < b))
  | .negInf, .int b => if b = 0 then .nan else JSNum.signed (decide (b < 0))
  | .int a, .posInf => if a = 0 then .nan else JSNum.signed (decide (0 < a))
  | .int a, .negInf => if a = 0 then .nan else JSNum.signed (decide (a < 0))
  | .posInf, .posInf => .posInf
  | .negInf, .negInf => .posInf
  | .posInf, .negInf => .negInf
  | .negInf, .posInf => .negInf
  | _, _ => .nan

/-- Embedding of `Math.ceil(total / limit)` for a row count `total`: division by
zero gives `NaN` or `Infinity`; otherwise the ceiling of the quotient, computed as
the negated floor of `-total / limit`. -/
def ceilDiv (total : Nat) : JSNum → JSNum
  | .int 0 => if total = 0 then .nan else .posInf
  | .int l => .int (-(Int.fdiv (-(total : Int)) l))
  | .nan => .nan
  | .posInf => .int 0
  | .negInf => .int 0

/-! ## Data model -/

/-- A row of table `customers`. -/
structure Customer where
  id : Nat
  first_name : String
  last_name : String
  phone_number : String
  deriving DecidableEq, Repr

/-- A row of table `addresses`; `customer_id` holds whatever the URL supplied. -/
structure Address where
  id : Nat
  customer_id : UrlValue
  address_details : String
  city : String
  state : String
  pin_code : String
  deriving DecidableEq, Repr

/-- The database file: both tables in rowid order, and for each the largest rowid
ever assigned (`sqlite_sequence`, kept by `AUTOINCREMENT`). -/
structure Store where
  customers : List Customer
  addresses : List Address
  customerSeq : Nat
  addressSeq : Nat
  deriving DecidableEq, Repr

/-- Settings of the connection `db`. -/
structure Connection where
  foreignKeys : Bool
  deriving DecidableEq, Repr

/-- The connection as `index.js` opens it: the callback of `new sqlite3.Database`
runs the two `CREATE TABLE IF NOT EXISTS` statements and nothing else, so the
`foreign_keys` setting keeps the engine default, which is off. -/
def db : Connection := { foreignKeys := false }

/-! ## The engine: values, `LIKE`, collation -/

/-- A value bound to a `?` placeholder: free text (a body field, a `LIKE` pattern)
or a query/path value. -/
inductive Bound where
  | text (s : String)
  | js (v : JSVal)
  deriving DecidableEq, Repr

/-- The integer the engine reads from a bound value in `LIMIT` and `OFFSET`: text
converts when it is a numeral of a 64-bit integer, a number when it lies strictly
between `-2 ^ 63` and `2 ^ 63`; `NaN` is bound as `NULL`, and text beyond the 64-bit
range, an infinity and anything else have no integer value.  The handlers never
bind free text in such a position. -/
def Bound.asInteger : Option Bound → Option Int
  | some (.js (.number (.int i))) =>
    if -9223372036854775808 < i ∧ i < 9223372036854775808 then some i else none
  | some (.js (.string (.int i))) =>
    if -9223372036854775808 ≤ i ∧ i < 9223372036854775808 then some i else none
  | _ => none

/-- The row id a bound value denotes in a comparison with the `INTEGER` key of a
table: the integer a numeral stands for; other text equals no row id.  Row ids are
unbounded naturals in this model, and so is the comparison. -/
def Bound.asRowId : Option Bound → Option Int
  | some (.js (.number (.int i))) => some i
  | some (.js (.string (.int i))) => some i
  | _ => none

/-- The text the engine reads from a bound value used as a `LIKE` pattern or stored
in a `TEXT` column.  The handlers only bind free text there. -/
def Bound.asText : Option Bound → Option String
  | some (.text s) => some s
  | _ => none

/-- The engine's `LIKE` on characters: `%` matches any run of characters, `_` any
single character, every other character matches itself up to ASCII letter case.
Text holding the character U+0000 is outside the model. -/
def likeMatch : List Char → List Char → Bool
  | [], s => s.isEmpty
  | '%' :: p, s => s.tails.any (fun t => likeMatch p t)
  | '_' :: p, s =>
    match s with
    | [] => false
    | _ :: t => likeMatch p t
  | a :: p, s =>
    match s with
    | [] => false
    | c :: t => a.toLower == c.toLower && likeMatch p t

/-- Embedding of `value LIKE pattern`; a `NULL` pattern matches nothing. -/
def like (value : String) (pattern : Option String) : Bool :=
  match pattern with
  | some p => likeMatch p.data value.data
  | none => false

/-- The default `BINARY` collation on text: byte order of the UTF-8 encoding,
which is the lexicographic order of the code points. -/
def textLe : List Char → List Char → Bool
  | [], _ => true
  | _ :: _, [] => false
  | a :: s, b :: t => a.toNat < b.toNat || (a.toNat == b.toNat && textLe s t)

/-- Embedding of `String.prototype.includes` on characters. -/
def includesChars : List Char → List Char → Bool
  | [], t => t.isEmpty
  | c :: s, t => t.isPrefixOf (c :: s) || includesChars s t

/-- Embedding of `message.includes(part)`. -/
def includes (message part : String) : Bool :=
  includesChars message.data part.data

/-! ## The engine: statements on `customers` -/

/-- A column of `customers` usable in `ORDER BY`. -/
inductive Column where
  | id
  | first_name
  | last_name
  | phone_number
  deriving DecidableEq, Repr

/-- The direction keyword of `ORDER BY`. -/
inductive SortOrder where
  | ASC
  | DESC
  deriving DecidableEq, Repr

/-- The statement text the listing handler assembles: `SELECT * FROM customers` or
`SELECT COUNT(*) as total FROM customers`, followed by the clauses appended to it.
* `searchCondition`: ` WHERE first_name LIKE ? OR last_name LIKE ? OR phone_number LIKE ?`
* `orderBy`: ` ORDER BY <column> <direction>`
* `limitOffset`: ` LIMIT ? OFFSET ?` -/
structure CustomerSelect where
  count : Bool
  searchCondition : Bool
  orderBy : Option (Column × SortOrder)
  limitOffset : Bool
  deriving DecidableEq, Repr

/-- Number of `?` placeholders in the statement. -/
def CustomerSelect.placeholders (q : CustomerSelect) : Nat :=
  (if q.searchCondition then 3 else 0) + (if q.limitOffset then 2 else 0)

/-- The `WHERE` clause on one row: the three `LIKE` tests joined by `OR`, reading
the first three parameters; without the clause every row qualifies. -/
def searchFilter (searchCondition : Bool) (params : List Bound) (c : Customer) : Bool :=
  if searchCondition then
    like c.first_name (Bound.asText params[0]?)
      || like c.last_name (Bound.asText params[1]?)
      || like c.phone_number (Bound.asText params[2]?)
  else true

/-- Comparison `a <= b` on one column: integers for `id`, `BINARY` collation for text. -/
def Column.le : Column → Customer → Customer → Bool
  | .id, a, b => decide (a.id ≤ b.id)
  | .first_name, a, b => textLe a.first_name.data b.first_name.data
  | .last_name, a, b => textLe a.last_name.data b.last_name.data
  | .phone_number, a, b => textLe a.phone_number.data b.phone_number.data

/-- Whether row `a` may precede row `b` under `ORDER BY col ord`. -/
def rowLe (col : Column) (ord : SortOrder) (a b : Customer) : Bool :=
  match ord with
  | .ASC => col.le a b
  | .DESC => col.le b a

/-- Embedding of `ORDER BY col ord` over rows in rowid order.  The engine leaves the
order of rows with equal keys open; the model keeps them in rowid order. -/
def orderBy (col : Column) (ord : SortOrder) (rows : List Customer) : List Customer :=
  rows.insertionSort (fun a b => rowLe col ord a b = true)

/-- Embedding of `LIMIT limit OFFSET offset`: a negative offset counts as zero and a
negative limit is no limit. -/
def limitOffset {α : Type} (limit offset : Int) (rows : List α) : List α :=
  if limit < 0 then rows.drop offset.toNat else (rows.drop offset.toNat).take limit.toNat

/-- Message of the error raised for a value that is no integer in `LIMIT`/`OFFSET`. -/
def mismatchMessage : String := "SQLITE_MISMATCH: datatype mismatch"

/-- Message of the error raised when more values are bound than placeholders exist. -/
def rangeMessage : String := "SQLITE_RANGE: column index out of range"

/-- Message of the error raised by the `UNIQUE` constraint on `phone_number`. -/
def uniqueMessage : String :=
  "SQLITE_CONSTRAINT: UNIQUE constraint failed: customers.phone_number"

/-- Message of the error raised by a `NOT NULL` constraint. -/
def notNullMessage : String := "SQLITE_CONSTRAINT: NOT NULL constraint failed"

/-- The rows a `SELECT ... FROM customers` statement yields before any aggregate:
filter, then order, then limit and offset. -/
def selectRows (s : Store) (q : CustomerSelect) (params : List Bound) :
    Except String (List Customer) :=
  if q.placeholders < params.length then .error rangeMessage
  else
    let rows := s.customers.filter (searchFilter q.searchCondition params)
    let rows :=
      match q.orderBy with
      | some (col, ord) => orderBy col ord rows
      | none => rows
    if q.limitOffset then
      let k := if q.searchCondition then 3 else 0
      match Bound.asInteger params[k]?, Bound.asInteger params[k + 1]? with
      | some limit, some offset => .ok (limitOffset limit offset rows)
      | _, _ => .error mismatchMessage
    else .ok rows

/-- Embedding of `db.all(sql, params, ...)` for a customer listing statement. -/
def allCustomers (s : Store) (q : CustomerSelect) (params : List Bound) :
    Except String (List Customer) :=
  selectRows s q params

/-- Embedding of `db.get(countSql, params, ...)`: the `total` of the single row. -/
def getTotal (s : Store) (q : CustomerSelect) (params : List Bound) : Except String Nat :=
  match selectRows s q params with
  | .ok rows => .ok rows.length
  | .error e => .error e

/-- The rowid `AUTOINCREMENT` assigns: one more than the largest ever used. -/
def nextId (seq : Nat) (ids : List Nat) : Nat :=
  max seq (ids.foldr max 0) + 1

/-- Embedding of `db.run` on
`INSERT INTO customers (first_name, last_name, phone_number) VALUES (?, ?, ?)`:
the new state and `this.lastID`. -/
def runInsertCustomer (s : Store) (params : List Bound) : Except String (Nat × Store) :=
  if 3 < params.length then .error rangeMessage
  else
    match Bound.asText params[0]?, Bound.asText params[1]?, Bound.asText params[2]? with
    | some first, some last, some phone =>
      if s.customers.any (fun c => c.phone_number == phone) then .error uniqueMessage
      else
        let id := nextId s.customerSeq (s.customers.map (fun c => c.id))
        .ok (id, { s with
          customers := s.customers ++ [{ id := id, first_name := first,
                                         last_name := last, phone_number := phone }],
          customerSeq := id })
    | _, _, _ => .error notNullMessage

/-- Whether a row id equals the bound value under `INTEGER` affinity. -/
def idMatches (id : Nat) (param : Option Bound) : Bool :=
  match Bound.asRowId param with
  | some i => decide ((id : Int) = i)
  | none => false

/-- Embedding of `db.get` on `SELECT * FROM customers WHERE id = ?`. -/
def getCustomerById (s : Store) (params : List Bound) : Except String (Option Customer) :=
  if 1 < params.length then .error rangeMessage
  else .ok (s.customers.find? (fun c => idMatches c.id params[0]?))

/-- Embedding of `db.run` on
`UPDATE customers SET first_name = ?, last_name = ?, phone_number = ? WHERE id = ?`:
the new state and `this.changes`. -/
def runUpdateCustomer (s : Store) (params : List Bound) : Except String (Nat × Store) :=
  if 4 < params.length then .error rangeMessage
  else
    let hit := fun (c : Customer) => idMatches c.id params[3]?
    if s.customers.any hit then
      match Bound.asText params[0]?, Bound.asText params[1]?, Bound.asText params[2]? with
      | some first, some last, some phone =>
        if s.customers.any (fun c => !hit c && c.phone_number == phone) then
          .error uniqueMessage
        else
          .ok ((s.customers.filter hit).length, { s with
            customers := s.customers.map (fun c =>
              if hit c then { c with first_name := first, last_name := last,
                                     phone_number := phone }
              else c) })
      | _, _, _ => .error notNullMessage
    else .ok (0, s)

/-- Whether an address refers to the customer row `id`. -/
def refersTo (a : Address) (id : Nat) : Bool :=
  a.customer_id == UrlValue.int id

/-- Embedding of `db.run` on `DELETE FROM customers WHERE id = ?`: the new state and
`this.changes`.  `ON DELETE CASCADE` acts only on a connection that enforces
foreign keys. -/
def runDeleteCustomer (conn : Connection) (s : Store) (params : List Bound) :
    Except String (Nat × Store) :=
  if 1 < params.length then .error rangeMessage
  else
    let hit := fun (c : Customer) => idMatches c.id params[0]?
    let gone := s.customers.filter hit
    .ok (gone.length, { s with
      customers := s.customers.filter (fun c => !hit c),
      addresses :=
        if conn.foreignKeys then
          s.addresses.filter (fun a => !gone.any (fun c => refersTo a c.id))
        else s.addresses })

/-! ## The engine: statements on `addresses` -/

/-- Embedding of `db.run` on
`UPDATE addresses SET address_details = ?, city = ?, state = ?, pin_code = ? WHERE id = ?`:
the new state and `this.changes`. -/
def runUpdateAddress (s : Store) (params : List Bound) : Except String (Nat × Store) :=
  if 5 < params.length then .error rangeMessage
  else
    let hit := fun (a : Address) => idMatches a.id params[4]?
    if s.addresses.any hit then
      match Bound.asText params[0]?, Bound.asText params[1]?, Bound.asText params[2]?,
            Bound.asText params[3]? with
      | some details, some city, some state, some pin =>
        .ok ((s.addresses.filter hit).length, { s with
          addresses := s.addresses.map (fun a =>
            if hit a then { a with address_details := details, city := city,
                                   state := state, pin_code := pin }
            else a) })
      | _, _, _, _ => .error notNullMessage
    else .ok (0, s)

/-- Embedding of `db.run` on `DELETE FROM addresses WHERE id = ?`: the new state and
`this.changes`. -/
def runDeleteAddress (s : Store) (params : List Bound) : Except String (Nat × Store) :=
  if 1 < params.length then .error rangeMessage
  else
    let hit := fun (a : Address) => idMatches a.id params[0]?
    .ok ((s.addresses.filter hit).length,
         { s with addresses := s.addresses.filter (fun a => !hit a) })

/-- Message of the error raised by an enforced foreign key. -/
def foreignKeyMessage : String := "SQLITE_CONSTRAINT: FOREIGN KEY constraint failed"

/-- The value stored in `customer_id` for a bound value: under `INTEGER` affinity
numeric text becomes an integer, other text is stored as it is. -/
def Bound.asReference : Option Bound → Option UrlValue
  | some (.js (.string u)) => some u
  | some (.js (.number (.int i))) => some (.int i)
  | _ => none

/-- Embedding of `db.run` on
`INSERT INTO addresses (customer_id, address_details, city, state, pin_code)
VALUES (?, ?, ?, ?, ?)`: the new state and `this.lastID`.  The foreign key is
checked only on a connection that enforces foreign keys. -/
def runInsertAddress (conn : Connection) (s : Store) (params : List Bound) :
    Except String (Nat × Store) :=
  if 5 < params.length then .error rangeMessage
  else
    match Bound.asReference params[0]?, Bound.asText params[1]?, Bound.asText params[2]?,
          Bound.asText params[3]?, Bound.asText params[4]? with
    | some ref, some details, some city, some state, some pin =>
      if conn.foreignKeys && !s.customers.any (fun c => ref == UrlValue.int c.id) then
        .error foreignKeyMessage
      else
        let id := nextId s.addressSeq (s.addresses.map (fun a => a.id))
        let row : Address :=
          { id := id, customer_id := ref, address_details := details, city := city,
            state := state, pin_code := pin }
        .ok (id, { s with addresses := s.addresses ++ [row], addressSeq := id })
    | _, _, _, _, _ => .error notNullMessage

/-- Embedding of `db.all` on `SELECT * FROM addresses WHERE customer_id = ?`. -/
def allAddressesOf (s : Store) (params : List Bound) : Except String (List Address) :=
  if 1 < params.length then .error rangeMessage
  else
    match Bound.asReference params[0]? with
    | some ref => .ok (s.addresses.filter (fun a => a.customer_id == ref))
    | none => .ok []

/-- The statement text the address search assembles:
`SELECT c.id as customer_id, c.first_name, c.last_name, a.* FROM addresses a
JOIN customers c ON a.customer_id = c.id WHERE 1=1`, followed by the conditions
appended to it.
* `city`: ` AND a.city LIKE ?`
* `state`: ` AND a.state LIKE ?`
* `pin_code`: ` AND a.pin_code LIKE ?` -/
structure AddressSearch where
  city : Bool
  state : Bool
  pin_code : Bool
  deriving DecidableEq, Repr

/-- Number of `?` placeholders in the statement. -/
def AddressSearch.placeholders (q : AddressSearch) : Nat :=
  (if q.city then 1 else 0) + (if q.state then 1 else 0) + (if q.pin_code then 1 else 0)

/-- A row of the address search, as the driver hands it over: the columns of the
address and the names of its customer (`customer_id` is `c.id`, which the join makes
equal to `a.customer_id`). -/
structure AddressSearchRow where
  customer_id : Nat
  first_name : String
  last_name : String
  id : Nat
  address_details : String
  city : String
  state : String
  pin_code : String
  deriving DecidableEq, Repr

/-- The joined row of customer `c` and address `a`. -/
def joinRow (c : Customer) (a : Address) : AddressSearchRow :=
  { customer_id := c.id, first_name := c.first_name, last_name := c.last_name, id := a.id,
    address_details := a.address_details, city := a.city, state := a.state,
    pin_code := a.pin_code }

/-- The `WHERE` clause of the address search on one address: the appended `LIKE`
tests joined by `AND`, each reading the next parameter in order. -/
def addressFilter (q : AddressSearch) (params : List Bound) (a : Address) : Bool :=
  let iState := if q.city then 1 else 0
  let iPin := iState + (if q.state then 1 else 0)
  (!q.city || like a.city (Bound.asText params[0]?))
    && (!q.state || like a.state (Bound.asText params[iState]?))
    && (!q.pin_code || like a.pin_code (Bound.asText params[iPin]?))

/-- Embedding of `db.all` on the address search: the addresses passing the filter,
in rowid order, each joined with the customers whose id it refers to. -/
def allAddressSearch (s : Store) (q : AddressSearch) (params : List Bound) :
    Except String (List AddressSearchRow) :=
  if q.placeholders < params.length then .error rangeMessage
  else
    .ok ((s.addresses.filter (addressFilter q params)).flatMap (fun a =>
      (s.customers.filter (fun c => refersTo a c.id)).map (fun c => joinRow c a)))

/-! ## Requests and responses -/

/-- The JSON body of a create or update customer request. -/
structure CustomerBody where
  first_name : Option String
  last_name : Option String
  phone_number : Option String
  deriving DecidableEq, Repr

/-- The JSON body of a create or update address request. -/
structure AddressBody where
  address_details : Option String
  city : Option String
  state : Option String
  pin_code : Option String
  deriving DecidableEq, Repr

/-- The query string of `GET /api/addresses/search`. -/
structure AddressQuery where
  city : Option String
  state : Option String
  pin_code : Option String
  deriving DecidableEq, Repr

/-- The query string of `GET /api/customers`. -/
structure ListQuery where
  search : Option String
  sortBy : Option Column
  sortOrder : Option SortOrder
  page : Option UrlValue
  limit : Option UrlValue
  deriving DecidableEq, Repr

/-- The `pagination` object of a listing response. -/
structure Pagination where
  page : JSNum
  limit : JSNum
  total : Nat
  pages : JSNum
  deriving DecidableEq, Repr

/-- The JSON object a handler sends. -/
inductive Payload where
  | error (error : String)
  | message (message : String)
  | customer (message : String) (data : Customer)
  | listing (message : String) (data : List Customer) (pagination : Pagination)
  | address (message : String) (data : Address)
  | addresses (message : String) (data : List Address)
  | addressRows (message : String) (data : List AddressSearchRow)
  deriving DecidableEq, Repr

/-- An HTTP response: status code and JSON body. -/
structure Response where
  status : Nat
  body : Payload
  deriving DecidableEq, Repr

/-- A statement handed to the driver, by the table and verb it names. -/
inductive Sql where
  | insertCustomer
  | selectCustomers (q : CustomerSelect)
  | selectCustomerById
  | updateCustomer
  | deleteCustomer
  | updateAddress
  | deleteAddress
  | selectAddresses
  | insertAddress
  | searchAddresses (q : AddressSearch)
  deriving DecidableEq, Repr

/-- What handling one request amounts to: the response sent, the store afterwards,
and the statements issued with their parameters, in order. -/
structure Outcome where
  response : Response
  store : Store
  issued : List (Sql × List Bound)
  deriving DecidableEq, Repr

/-- Embedding of `!x` for a text field of a body: true for a missing field and for
the empty string. -/
def falsy : Option String → Bool
  | none => true
  | some s => s.data.isEmpty

/-- The text of a field that passed the `!x` test. -/
def fieldText (x : Option String) : String := x.getD ""

/-- Embedding of `res.status(code).json({ error })`. -/
def fail (code : Nat) (error : String) : Response :=
  { status := code, body := .error error }

/-- Embedding of `res.json(body)`. -/
def json (body : Payload) : Response :=
  { status := 200, body := body }

/-! ## Handlers -/

/-- Embedding of the handler of `POST /api/customers`. -/
def createCustomer (s : Store) (body : CustomerBody) : Outcome :=
  if falsy body.first_name || falsy body.last_name || falsy body.phone_number then
    { response := fail 400 "All fields are required", store := s, issued := [] }
  else
    let first_name := fieldText body.first_name
    let last_name := fieldText body.last_name
    let phone_number := fieldText body.phone_number
    let params := [Bound.text first_name, Bound.text last_name, Bound.text phone_number]
    let issued := [(Sql.insertCustomer, params)]
    match runInsertCustomer s params with
    | .error message =>
      if includes message "UNIQUE constraint failed" then
        { response := fail 400 "Phone number already exists", store := s, issued := issued }
      else
        { response := fail 400 message, store := s, issued := issued }
    | .ok (lastID, s') =>
      { response := json (.customer "Customer created successfully"
          { id := lastID, first_name := first_name, last_name := last_name,
            phone_number := phone_number }),
        store := s', issued := issued }

/-- Embedding of the handler of `GET /api/customers`. -/
def listCustomers (s : Store) (query : ListQuery) : Outcome :=
  let search := query.search
  let sortBy := query.sortBy.getD Column.last_name
  let sortOrder := query.sortOrder.getD SortOrder.ASC
  let page : JSVal :=
    match query.page with
    | some u => .string u
    | none => .number (.int 1)
  let limit : JSVal :=
    match query.limit with
    | some u => .string u
    | none => .number (.int 10)
  let sql : CustomerSelect :=
    { count := false, searchCondition := false, orderBy := none, limitOffset := false }
  let countSql : CustomerSelect :=
    { count := true, searchCondition := false, orderBy := none, limitOffset := false }
  let params : List Bound := []
  let (sql, countSql, params) :=
    if !falsy search then
      let pattern := "%" ++ fieldText search ++ "%"
      ({ sql with searchCondition := true }, { countSql with searchCondition := true },
       [Bound.text pattern, Bound.text pattern, Bound.text pattern])
    else (sql, countSql, params)
  let sql := { sql with orderBy := some (sortBy, sortOrder) }
  let offset := (page.toNumber.sub (.int 1)).mul limit.toNumber
  let sql := { sql with limitOffset := true }
  let params := params ++ [Bound.js limit, Bound.js (.number offset)]
  let countParams := params.take (params.length - 2)
  match getTotal s countSql countParams with
  | .error message =>
    { response := fail 400 message, store := s,
      issued := [(Sql.selectCustomers countSql, countParams)] }
  | .ok total =>
    let issued := [(Sql.selectCustomers countSql, countParams), (Sql.selectCustomers sql, params)]
    match allCustomers s sql params with
    | .error message => { response := fail 400 message, store := s, issued := issued }
    | .ok rows =>
      { response := json (.listing "Success" rows
          { page := parseInt page, limit := parseInt limit, total := total,
            pages := ceilDiv total limit.toNumber }),
        store := s, issued := issued }

/-- Embedding of the handler of `GET /api/customers/:id`. -/
def getCustomer (s : Store) (id : UrlValue) : Outcome :=
  let params := [Bound.js (.string id)]
  let issued := [(Sql.selectCustomerById, params)]
  match getCustomerById s params with
  | .error message => { response := fail 400 message, store := s, issued := issued }
  | .ok none => { response := fail 404 "Customer not found", store := s, issued := issued }
  | .ok (some row) =>
    { response := json (.customer "Success" row), store := s, issued := issued }

/-- Embedding of the handler of `PUT /api/customers/:id`. -/
def updateCustomer (s : Store) (id : UrlValue) (body : CustomerBody) : Outcome :=
  if falsy body.first_name || falsy body.last_name || falsy body.phone_number then
    { response := fail 400 "All fields are required", store := s, issued := [] }
  else
    let params := [Bound.text (fieldText body.first_name), Bound.text (fieldText body.last_name),
                   Bound.text (fieldText body.phone_number), Bound.js (.string id)]
    let issued := [(Sql.updateCustomer, params)]
    match runUpdateCustomer s params with
    | .error message =>
      if includes message "UNIQUE constraint failed" then
        { response := fail 400 "Phone number already exists", store := s, issued := issued }
      else
        { response := fail 400 message, store := s, issued := issued }
    | .ok (changes, s') =>
      if changes = 0 then
        { response := fail 404 "Customer not found", store := s', issued := issued }
      else
        { response := json (.message "Customer updated successfully"), store := s',
          issued := issued }

/-- Embedding of the handler of `DELETE /api/customers/:id`. -/
def deleteCustomer (s : Store) (id : UrlValue) : Outcome :=
  let params := [Bound.js (.string id)]
  let issued := [(Sql.deleteCustomer, params)]
  match runDeleteCustomer db s params with
  | .error message => { response := fail 400 message, store := s, issued := issued }
  | .ok (changes, s') =>
    if changes = 0 then
      { response := fail 404 "Customer not found", store := s', issued := issued }
    else
      { response := json (.message "Customer deleted successfully"), store := s',
        issued := issued }

/-- Embedding of the handler of `PUT /api/addresses/:addressId`. -/
def updateAddress (s : Store) (addressId : UrlValue) (body : AddressBody) : Outcome :=
  if falsy body.address_details || falsy body.city || falsy body.state
      || falsy body.pin_code then
    { response := fail 400 "All address fields are required", store := s, issued := [] }
  else
    let params := [Bound.text (fieldText body.address_details), Bound.text (fieldText body.city),
                   Bound.text (fieldText body.state), Bound.text (fieldText body.pin_code),
                   Bound.js (.string addressId)]
    let issued := [(Sql.updateAddress, params)]
    match runUpdateAddress s params with
    | .error message => { response := fail 400 message, store := s, issued := issued }
    | .ok (changes, s') =>
      if changes = 0 then
        { response := fail 404 "Address not found", store := s', issued := issued }
      else
        { response := json (.message "Address updated successfully"), store := s',
          issued := issued }

/-- Embedding of the handler of `DELETE /api/addresses/:addressId`. -/
def deleteAddress (s : Store) (addressId : UrlValue) : Outcome :=
  let params := [Bound.js (.string addressId)]
  let issued := [(Sql.deleteAddress, params)]
  match runDeleteAddress s params with
  | .error message => { response := fail 400 message, store := s, issued := issued }
  | .ok (changes, s') =>
    if changes = 0 then
      { response := fail 404 "Address not found", store := s', issued := issued }
    else
      { response := json (.message "Address deleted successfully"), store := s',
        issued := issued }

/-- Embedding of the handler of `GET /api/customers/:id/addresses`. -/
def listAddresses (s : Store) (id : UrlValue) : Outcome :=
  let params := [Bound.js (.string id)]
  let issued := [(Sql.selectAddresses, params)]
  match allAddressesOf s params with
  | .error message => { response := fail 400 message, store := s, issued := issued }
  | .ok rows => { response := json (.addresses "Success" rows), store := s, issued := issued }

/-- Embedding of the handler of `POST /api/customers/:id/addresses`. -/
def addAddress (s : Store) (id : UrlValue) (body : AddressBody) : Outcome :=
  if falsy body.address_details || falsy body.city || falsy body.state
      || falsy body.pin_code then
    { response := fail 400 "All address fields are required", store := s, issued := [] }
  else
    let address_details := fieldText body.address_details
    let city := fieldText body.city
    let state := fieldText body.state
    let pin_code := fieldText body.pin_code
    let params := [Bound.js (.string id), Bound.text address_details, Bound.text city,
                   Bound.text state, Bound.text pin_code]
    let issued := [(Sql.insertAddress, params)]
    match runInsertAddress db s params with
    | .error message => { response := fail 400 message, store := s, issued := issued }
    | .ok (lastID, s') =>
      { response := json (.address "Address added successfully"
          { id := lastID, customer_id := id, address_details := address_details, city := city,
            state := state, pin_code := pin_code }),
        store := s', issued := issued }

/-- Embedding of the handler of `GET /api/addresses/search`. -/
def searchAddresses (s : Store) (query : AddressQuery) : Outcome :=
  let sql : AddressSearch := { city := false, state := false, pin_code := false }
  let params : List Bound := []
  let (sql, params) :=
    if !falsy query.city then
      ({ sql with city := true }, params ++ [Bound.text ("%" ++ fieldText query.city ++ "%")])
    else (sql, params)
  let (sql, params) :=
    if !falsy query.state then
      ({ sql with state := true }, params ++ [Bound.text ("%" ++ fieldText query.state ++ "%")])
    else (sql, params)
  let (sql, params) :=
    if !falsy query.pin_code then
      ({ sql with pin_code := true },
       params ++ [Bound.text ("%" ++ fieldText query.pin_code ++ "%")])
    else (sql, params)
  let issued := [(Sql.searchAddresses sql, params)]
  match allAddressSearch s sql params with
  | .error message => { response := fail 400 message, store := s, issued := issued }
  | .ok rows => { response := json (.addressRows "Success" rows), store := s, issued := issued }

/-! ## Routes of the server and requests of the client views -/

/-- The HTTP methods the server registers routes for. -/
inductive Method where
  | GET
  | POST
  | PUT
  | DELETE
  deriving DecidableEq, Repr

/-- The handlers of `server/index.js`, in the order of their registration. -/
inductive Handler where
  | createCustomer
  | listCustomers
  | getCustomer
  | updateCustomer
  | deleteCustomer
  | listAddresses
  | addAddress
  | updateAddress
  | deleteAddress
  | searchAddresses
  deriving DecidableEq, Repr

/-- One segment of a route path: literal text or a `:name` parameter. -/
inductive Segment where
  | lit (text : String)
  | param (name : String)
  deriving DecidableEq, Repr

/-- A registered route: `app.METHOD(path, handler)`, the path split at `/`. -/
structure Route where
  method : Method
  path : List Segment
  handler : Handler
  deriving DecidableEq, Repr

/-- The routes of `server/index.js`, in the order of their registration. -/
def routes : List Route :=
  [ { method := .POST, path := [.lit "api", .lit "customers"], handler := .createCustomer },
    { method := .GET, path := [.lit "api", .lit "customers"], handler := .listCustomers },
    { method := .GET, path := [.lit "api", .lit "customers", .param "id"],
      handler := .getCustomer },
    { method := .PUT, path := [.lit "api", .lit "customers", .param "id"],
      handler := .updateCustomer },
    { method := .DELETE, path := [.lit "api", .lit "customers", .param "id"],
      handler := .deleteCustomer },
    { method := .GET, path := [.lit "api", .lit "customers", .param "id", .lit "addresses"],
      handler := .listAddresses },
    { method := .POST, path := [.lit "api", .lit "customers", .param "id", .lit "addresses"],
      handler := .addAddress },
    { method := .PUT, path := [.lit "api", .lit "addresses", .param "addressId"],
      handler := .updateAddress },
    { method := .DELETE, path := [.lit "api", .lit "addresses", .param "addressId"],
      handler := .deleteAddress },
    { method := .GET, path := [.lit "api", .lit "addresses", .lit "search"],
      handler := .searchAddresses } ]

/-- Whether a route segment matches a segment of a request path: a literal matches
itself, a parameter matches any non-empty segment. -/
def Segment.accepts : Segment → String → Bool
  | .lit text, segment => text == segment
  | .param _, segment => !segment.data.isEmpty

/-- Whether a route path matches a request path, segment by segment. -/
def pathAccepts : List Segment → List String → Bool
  | [], [] => true
  | p :: ps, segment :: rest => p.accepts segment && pathAccepts ps rest
  | _, _ => false

/-- The router: the handler of the first registered route whose method and path
match the request (every handler answers and none passes the request on).  Paths
are compared segment by segment as they are; that the router also ignores letter
case and a trailing slash is left out. -/
def dispatch (method : Method) (path : List String) : Option Handler :=
  (routes.find? (fun r => decide (r.method = method) && pathAccepts r.path path)).map
    (fun r => r.handler)

/-- The requests the client views send with `axios`, named by the function that
sends them; the argument is the id spliced into the URL. -/
inductive ClientCall where
  | formFetchCustomer (id : String)
  | handleSubmitEdit (id : String)
  | handleSubmitCreate
  | fetchCustomerDetails (id : String)
  | fetchAddresses (id : String)
  | handleDeleteCustomer (id : String)
  | handleAddAddress (id : String)
  | handleDeleteAddress (addressId : String)
  | fetchCustomers
  | handleDelete (id : String)
  deriving DecidableEq, Repr

/-- The method and the path (after the host, split at `/`) of a client request. -/
def ClientCall.request : ClientCall → Method × List String
  | .formFetchCustomer id => (.GET, ["customers", id])
  | .handleSubmitEdit id => (.PUT, ["customers", id])
  | .handleSubmitCreate => (.POST, ["customers"])
  | .fetchCustomerDetails id => (.GET, ["customers", id])
  | .fetchAddresses id => (.GET, ["customers", id, "addresses"])
  | .handleDeleteCustomer id => (.DELETE, ["customers", id])
  | .handleAddAddress id => (.POST, ["customers", id, "addresses"])
  | .handleDeleteAddress addressId => (.DELETE, ["addresses", addressId])
  | .fetchCustomers => (.GET, ["customers"])
  | .handleDelete id => (.DELETE, ["customers", id])

/-- The server handler a client request is meant for. -/
def ClientCall.target : ClientCall → Handler
  | .formFetchCustomer _ => .getCustomer
  | .handleSubmitEdit _ => .updateCustomer
  | .handleSubmitCreate => .createCustomer
  | .fetchCustomerDetails _ => .getCustomer
  | .fetchAddresses _ => .listAddresses
  | .handleDeleteCustomer _ => .deleteCustomer
  | .handleAddAddress _ => .addAddress
  | .handleDeleteAddress _ => .deleteAddress
  | .fetchCustomers => .listCustomers
  | .handleDelete _ => .deleteCustomer

/-- The id a client request splices into its URL, if any. -/
def ClientCall.id? : ClientCall → Option String
  | .formFetchCustomer id => some id
  | .handleSubmitEdit id => some id
  | .handleSubmitCreate => none
  | .fetchCustomerDetails id => some id
  | .fetchAddresses id => some id
  | .handleDeleteCustomer id => some id
  | .handleAddAddress id => some id
  | .handleDeleteAddress addressId => some addressId
  | .fetchCustomers => none
  | .handleDelete id => some id

/-- The REST surface of the specification: method, path and the operation it names. -/
def documentedSurface : List Route :=
  [ { method := .POST, path := [.lit "customers"], handler := .createCustomer },
    { method := .GET, path := [.lit "customers"], handler := .listCustomers },
    { method := .GET, path := [.lit "customers", .param "id"], handler := .getCustomer },
    { method := .PUT, path := [.lit "customers", .param "id"], handler := .updateCustomer },
    { method := .DELETE, path := [.lit "customers", .param "id"], handler := .deleteCustomer },
    { method := .GET, path := [.lit "customers", .param "id", .lit "addresses"],
      handler := .listAddresses },
    { method := .POST, path := [.lit "customers", .param "id", .lit "addresses"],
      handler := .addAddress },
    { method := .PUT, path := [.lit "addresses", .param "addressId"],
      handler := .updateAddress },
    { method := .DELETE, path := [.lit "addresses", .param "addressId"],
      handler := .deleteAddress },
    { method := .GET, path := [.lit "addresses", .lit "search"],
      handler := .searchAddresses } ]

/-! ## Validation in the client views -/

/-- The state `formData` of `CustomerFormPage`. -/
structure CustomerForm where
  first_name : String
  last_name : String
  phone_number : String
  deriving DecidableEq, Repr

/-- The state `addressForm` of `CustomerDetailPage`. -/
structure AddressForm where
  address_details : String
  city : String
  state : String
  pin_code : String
  deriving DecidableEq, Repr

/-- The characters `String.prototype.trim` removes: white space and line
terminators. -/
def isTrimmed (c : Char) : Bool :=
  c.toNat ∈ [0x09, 0x0A, 0x0B, 0x0C, 0x0D, 0x20, 0xA0, 0x1680, 0x2000, 0x2001, 0x2002,
    0x2003, 0x2004, 0x2005, 0x2006, 0x2007, 0x2008, 0x2009, 0x200A, 0x2028, 0x2029, 0x202F,
    0x205F, 0x3000, 0xFEFF]

/-- Embedding of `s.trim()` on characters. -/
def trimChars (s : List Char) : List Char :=
  ((s.dropWhile isTrimmed).reverse.dropWhile isTrimmed).reverse

/-- Embedding of `s.trim()`. -/
def trim (s : String) : String := String.mk (trimChars s.data)

/-- Embedding of `!s` for a string: true for the empty string. -/
def isEmptyText (s : String) : Bool := s.data.isEmpty

/-- Embedding of `/^\d{10}$/.test(s)`: exactly ten ASCII digits. -/
def tenDigits (s : String) : Bool :=
  s.data.length == 10 && s.data.all Char.isDigit

/-- Embedding of `validateForm` of `CustomerFormPage`: the errors handed to
`setErrors`, as (field, message) pairs, and the returned flag. -/
def validateForm (formData : CustomerForm) : List (String × String) × Bool :=
  let newErrors : List (String × String) := []
  let newErrors :=
    if isEmptyText (trim formData.first_name) then
      newErrors ++ [("first_name", "First name is required")]
    else newErrors
  let newErrors :=
    if isEmptyText (trim formData.last_name) then
      newErrors ++ [("last_name", "Last name is required")]
    else newErrors
  let newErrors :=
    if isEmptyText (trim formData.phone_number) then
      newErrors ++ [("phone_number", "Phone number is required")]
    else if !tenDigits formData.phone_number then
      newErrors ++ [("phone_number", "Phone number must be 10 digits")]
    else newErrors
  (newErrors, newErrors.length == 0)

/-- Embedding of `validateAddressForm` of `CustomerDetailPage`: the errors handed to
`setAddressErrors` and the returned flag. -/
def validateAddressForm (addressForm : AddressForm) : List (String × String) × Bool :=
  let newErrors : List (String × String) := []
  let newErrors :=
    if isEmptyText (trim addressForm.address_details) then
      newErrors ++ [("address_details", "Address details are required")]
    else newErrors
  let newErrors :=
    if isEmptyText (trim addressForm.city) then
      newErrors ++ [("city", "City is required")]
    else newErrors
  let newErrors :=
    if isEmptyText (trim addressForm.state) then
      newErrors ++ [("state", "State is required")]
    else newErrors
  let newErrors :=
    if isEmptyText (trim addressForm.pin_code) then
      newErrors ++ [("pin_code", "PIN code is required")]
    else newErrors
  (newErrors, newErrors.length == 0)

/-- The JSON body `axios` sends for `formData`. -/
def CustomerForm.toBody (formData : CustomerForm) : CustomerBody :=
  { first_name := some formData.first_name, last_name := some formData.last_name,
    phone_number := some formData.phone_number }

/-- The JSON body `axios` sends for `addressForm`. -/
def AddressForm.toBody (addressForm : AddressForm) : AddressBody :=
  { address_details := some addressForm.address_details, city := some addressForm.city,
    state := some addressForm.state, pin_code := some addressForm.pin_code }

/-! ## Reference notions used to state the properties -/

/-- The value of `page` after destructuring `req.query`. -/
def pageOf (q : ListQuery) : JSVal :=
  match q.page with
  | some u => .string u
  | none => .number (.int 1)

/-- The value of `limit` after destructuring `req.query`. -/
def limitOf (q : ListQuery) : JSVal :=
  match q.limit with
  | some u => .string u
  | none => .number (.int 10)

/-- The filter a search value stands for: no filter for an absent or empty value,
otherwise `LIKE '%value%'` on any of the three text columns. -/
def matchesSearch (search : Option String) (c : Customer) : Bool :=
  falsy search ||
    (like c.first_name (some ("%" ++ fieldText search ++ "%"))
      || like c.last_name (some ("%" ++ fieldText search ++ "%"))
      || like c.phone_number (some ("%" ++ fieldText search ++ "%")))

/-- The filtered and sorted customer sequence a listing request pages through. -/
def sortedMatches (s : Store) (q : ListQuery) : List Customer :=
  orderBy (q.sortBy.getD Column.last_name) (q.sortOrder.getD SortOrder.ASC)
    (s.customers.filter (matchesSearch q.search))

/-- A sample customer. -/
def ann : Customer :=
  { id := 1, first_name := "Ann", last_name := "Lee", phone_number := "1234567890" }

/-- A store holding the single customer `ann`. -/
def oneCustomer : Store :=
  { customers := [ann], addresses := [], customerSeq := 1, addressSeq := 0 }

/-- The listing request without any query parameter. -/
def plainQuery : ListQuery :=
  { search := none, sortBy := none, sortOrder := none, page := none, limit := none }

/-- Whether `text` contains `term` as a substring up to the case of the ASCII
letters. -/
def containsIgnoringCase (text term : String) : Prop :=
  term.data.map Char.toLower <:+: text.data.map Char.toLower

instance (text term : String) : Decidable (containsIgnoringCase text term) :=
  inferInstanceAs (Decidable (_ <:+: _))

/-- The reference filter of a search: the term occurs in one of the three text
fields of the customer. -/
def termOccurs (term : String) (c : Customer) : Prop :=
  containsIgnoringCase c.first_name term ∨ containsIgnoringCase c.last_name term
    ∨ containsIgnoringCase c.phone_number term

instance (term : String) (c : Customer) : Decidable (termOccurs term c) :=
  inferInstanceAs (Decidable (_ ∨ _ ∨ _))

/-- A customer whose first name begins with a non-ASCII capital. -/
def emile : Customer :=
  { id := 1, first_name := "Émile", last_name := "Roux", phone_number := "5550001111" }

/-- A store holding the single customer `emile`. -/
def emileStore : Store :=
  { customers := [emile], addresses := [], customerSeq := 1, addressSeq := 0 }

/-- The parameters a search value contributes: none for an absent or empty value,
otherwise the pattern `%value%` three times. -/
def searchParams (search : Option String) : List Bound :=
  if falsy search then []
  else [Bound.text ("%" ++ fieldText search ++ "%"), Bound.text ("%" ++ fieldText search ++ "%"),
        Bound.text ("%" ++ fieldText search ++ "%")]

/-- The count statement of a listing request. -/
def countStatement (q : ListQuery) : CustomerSelect :=
  { count := true, searchCondition := !falsy q.search, orderBy := none, limitOffset := false }

/-- The data statement of a listing request. -/
def dataStatement (q : ListQuery) : CustomerSelect :=
  { count := false, searchCondition := !falsy q.search,
    orderBy := some (q.sortBy.getD Column.last_name, q.sortOrder.getD SortOrder.ASC),
    limitOffset := true }

/-- The value of `offset` in the listing handler. -/
def offsetOf (q : ListQuery) : JSNum :=
  ((pageOf q).toNumber.sub (.int 1)).mul (limitOf q).toNumber

/-- A store of fifteen customers with distinct phone numbers. -/
def fifteen : Store :=
  { customers := (List.range 15).map (fun i =>
      { id := i + 1, first_name := "Customer", last_name := String.mk (List.replicate (i + 1) 'a'),
        phone_number := String.mk (List.replicate (i + 1) '7') }),
    addresses := [], customerSeq := 15, addressSeq := 0 }

/-- The listing request `?page=2&limit=10`. -/
def pageTwoOfTen : ListQuery :=
  { search := none, sortBy := none, sortOrder := none, page := some (.int 2),
    limit := some (.int 10) }

/-- The listing request that passes the four documented defaults explicitly. -/
def explicitDefaults (search : Option String) : ListQuery :=
  { search := search, sortBy := some Column.last_name, sortOrder := some SortOrder.ASC,
    page := some (.int 1), limit := some (.int 10) }

/-- The listing request that omits sortBy, sortOrder, page and limit. -/
def omittedDefaults (search : Option String) : ListQuery :=
  { search := search, sortBy := none, sortOrder := none, page := none, limit := none }

/-- The invariant of the `UNIQUE` constraint: no two customers share a phone number. -/
def UniquePhones (s : Store) : Prop :=
  (s.customers.map (fun c => c.phone_number)).Nodup

/-- The invariant of the primary key: no two customers share an id. -/
def UniqueIds (s : Store) : Prop :=
  (s.customers.map (fun c => c.id)).Nodup

instance (s : Store) : Decidable (UniquePhones s) :=
  inferInstanceAs (Decidable (List.Nodup _))

instance (s : Store) : Decidable (UniqueIds s) :=
  inferInstanceAs (Decidable (List.Nodup _))

/-- The row a create request is expected to produce under id `id`. -/
def newCustomer (id : Nat) (first last phone : String) : Customer :=
  { id := id, first_name := first, last_name := last, phone_number := phone }

/-- A sample address of customer 1. -/
def annAddress : Address :=
  { id := 1, customer_id := UrlValue.int 1, address_details := "12 High Street",
    city := "Pune", state := "MH", pin_code := "411001" }

/-- A store holding `ann` and one address of hers. -/
def annWithAddress : Store :=
  { customers := [ann], addresses := [annAddress], customerSeq := 1, addressSeq := 1 }

/-- A well-formed create/update body. -/
def bobBody : CustomerBody :=
  { first_name := some "Bob", last_name := some "Ray", phone_number := some "5550002222" }

/-- The condition one search criterion appends, evaluated on a field: nothing for
an absent or empty criterion, otherwise `field LIKE '%criterion%'`. -/
def criterionLike (criterion : Option String) (field : String) : Bool :=
  falsy criterion || like field (some ("%" ++ fieldText criterion ++ "%"))

/-- The parameter one search criterion contributes: none for an absent or empty
criterion, otherwise the pattern `%criterion%`. -/
def criterionParams (criterion : Option String) : List Bound :=
  if falsy criterion then [] else [Bound.text ("%" ++ fieldText criterion ++ "%")]

/-- The reference filter of one search criterion: an absent or empty criterion
holds of every field, any other holds of the fields that contain it as a substring
up to the case of the ASCII letters. -/
def criterionHolds (criterion : Option String) (field : String) : Prop :=
  falsy criterion = true ∨ containsIgnoringCase field (fieldText criterion)

/-- The address search `?city=_`. -/
def cityUnderscore : AddressQuery :=
  { city := some "_", state := none, pin_code := none }

/-- The address search `?city=pun`. -/
def cityPun : AddressQuery :=
  { city := some "pun", state := none, pin_code := none }

/-- A second sample customer. -/
def bob : Customer :=
  { id := 2, first_name := "Bob", last_name := "Ray", phone_number := "5550002222" }

/-- A store holding `ann` and `bob`. -/
def twoCustomers : Store :=
  { customers := [ann, bob], addresses := [], customerSeq := 2, addressSeq := 0 }

/-- A customer form with a three-digit phone number. -/
def shortPhoneForm : CustomerForm :=
  { first_name := "Ann", last_name := "Lee", phone_number := "123" }

/-- A customer form whose first name is blank. -/
def blankNameForm : CustomerForm :=
  { first_name := "  ", last_name := "Lee", phone_number := "5550003333" }

/-- A customer form that passes the client validation. -/
def annForm : CustomerForm :=
  { first_name := "Ann", last_name := "Lee", phone_number := "1234567890" }

/-- An address form that passes the client validation. -/
def puneForm : AddressForm :=
  { address_details := "12 High Street", city := "Pune", state := "MH", pin_code := "411001" }

/-- A store without any row. -/
def emptyStore : Store :=
  { customers := [], addresses := [], customerSeq := 0, addressSeq := 0 }

/-- The listing request `?page=3&limit=9223372036854775807`. -/
def hugeLimitPageThree : ListQuery :=
  { search := none, sortBy := none, sortOrder := none, page := some (.int 3),
    limit := some (.int 9223372036854775807) }

/-- The listing request `?limit=9007199254740993`. -/
def unsafeLimit : ListQuery :=
  { search := none, sortBy := none, sortOrder := none, page := none,
    limit := some (.int 9007199254740993) }

/-! # Theorems -/

/-! ## Arithmetic of `ceilDiv` -/

theorem fmod_neg_bounds (a : Int) {b : Int} (hb : b < 0) : b < a.fmod b ∧ a.fmod b ≤ 0 := by
  obtain ⟨n, rfl⟩ := Int.eq_negSucc_of_lt_zero hb
  cases a with
  | ofNat m =>
    cases m with
    | zero => simp [Int.fmod, Int.negSucc_eq]; omega
    | succ m =>
      simp only [Int.fmod, Int.ofNat_eq_coe]
      rw [Int.subNatNat_eq_coe, Int.negSucc_eq]
      have hk := Nat.mod_lt m (Nat.succ_pos n)
      generalize m % n.succ = k at hk ⊢
      omega
  | negSucc m =>
    simp only [Int.fmod]
    rw [Int.negSucc_eq]
    have hk := Nat.mod_lt (m.succ) (Nat.succ_pos n)
    generalize m.succ % n.succ = k at hk ⊢
    simp only [Int.ofNat_eq_coe]
    omega

theorem neg_fdiv_neg_eq_ceil (t : Nat) (l : Int) (h : l ≠ 0) :
    -(Int.fdiv (-(t : Int)) l) = Int.ceil ((t : ℚ) / (l : ℚ)) := by
  symm
  rw [Int.ceil_eq_iff]
  have e := Int.fmod_add_fdiv (-(t : Int)) l
  have eq : ((-(t : Int)).fmod l : ℚ) + (l : ℚ) * ((-(t : Int)).fdiv l : ℚ) = -(t : ℚ) := by
    exact_mod_cast e
  rcases lt_or_gt_of_ne h with hl | hl
  · obtain ⟨h1, h2⟩ := fmod_neg_bounds (-(t : Int)) hl
    have hl' : (l : ℚ) < 0 := by exact_mod_cast hl
    have h1' : (l : ℚ) < ((-(t : Int)).fmod l : ℚ) := by exact_mod_cast h1
    have h2' : ((-(t : Int)).fmod l : ℚ) ≤ 0 := by exact_mod_cast h2
    push_cast
    constructor
    · rw [lt_div_iff_of_neg hl']; nlinarith
    · rw [div_le_iff_of_neg hl']; nlinarith
  · have h1 := Int.fmod_nonneg' (-(t : Int)) hl
    have h2 := Int.fmod_lt_of_pos (-(t : Int)) hl
    have hl' : (0 : ℚ) < l := by exact_mod_cast hl
    have h1' : (0 : ℚ) ≤ ((-(t : Int)).fmod l : ℚ) := by exact_mod_cast h1
    have h2' : ((-(t : Int)).fmod l : ℚ) < l := by exact_mod_cast h2
    push_cast
    constructor
    · rw [lt_div_iff₀ hl']; nlinarith
    · rw [div_le_iff₀ hl']; nlinarith

/-- For a non-zero limit `ceilDiv` is the ceiling of the rational quotient. -/
theorem ceilDiv_int (t : Nat) (l : Int) (h : l ≠ 0) :
    ceilDiv t (.int l) = .int (Int.ceil ((t : ℚ) / (l : ℚ))) := by
  rw [← neg_fdiv_neg_eq_ceil t l h]
  cases l with
  | ofNat n =>
    cases n with
    | zero => exact absurd rfl h
    | succ n => rfl
  | negSucc n => rfl

theorem length_limitOffset_le {α : Type} (l o : Int) (hl : 0 ≤ l) (rows : List α) :
    ((limitOffset l o rows).length : Int) ≤ l := by
  unfold limitOffset
  rw [if_neg (by omega)]
  have := List.length_take_le l.toNat (rows.drop o.toNat)
  omega

/-! ## Doubles -/

theorem roundNat_of_lt (n : Nat) (h : n < 9007199254740992) : roundNat n = n := by
  have he : excessBits 1100 n = 0 := by
    show (if n < 9007199254740992 then 0 else excessBits 1099 (n / 2) + 1) = 0
    rw [if_pos h]
  unfold roundNat
  simp [he, Nat.mod_one]

theorem roundNat_of_le (n : Nat) (h : n ≤ 9007199254740992) : roundNat n = n := by
  rcases Nat.lt_or_eq_of_le h with h | h
  · exact roundNat_of_lt n h
  · subst h; decide

theorem two_pow_excessBits (fuel n : Nat) :
    excessBits fuel n = 0 ∨ 2 ^ excessBits fuel n ≤ n := by
  induction fuel generalizing n with
  | zero => left; rfl
  | succ fuel ih =>
    by_cases h : n < 9007199254740992
    · left
      show (if n < 9007199254740992 then 0 else excessBits fuel (n / 2) + 1) = 0
      rw [if_pos h]
    · right
      have he : excessBits (fuel + 1) n = excessBits fuel (n / 2) + 1 := by
        show (if n < 9007199254740992 then 0 else excessBits fuel (n / 2) + 1) = _
        rw [if_neg h]
      rw [he, pow_succ]
      rcases ih (n / 2) with h0 | hle
      · rw [h0]; omega
      · omega

theorem roundNat_le (n : Nat) : roundNat n ≤ 2 * n := by
  unfold roundNat
  simp only []
  have hq := Nat.div_mul_le_self n (2 ^ excessBits 1100 n)
  rcases two_pow_excessBits 1100 n with h0 | hle
  · simp [h0, Nat.mod_one]
    omega
  · split
    · rw [Nat.add_mul]; omega
    · omega

theorem toDouble_exact (i : Int) (h : |i| ≤ 9007199254740992) : toDouble i = .int i := by
  have hn : i.natAbs ≤ 9007199254740992 := by
    rw [abs_le] at h; omega
  have hr := roundNat_of_le _ hn
  have hov : ¬ doubleOverflow ≤ i.natAbs := by
    have : (9007199254740992 : Nat) < doubleOverflow := by decide
    omega
  unfold toDouble
  rw [hr, if_neg hov]
  split
  · congr 1; omega
  · congr 1; omega

theorem toDouble_finite (i : Int) (h : |i| ≤ 9223372036854775808) :
    ∃ d : Int, toDouble i = .int d := by
  have hn : i.natAbs ≤ 9223372036854775808 := by
    rw [abs_le] at h; omega
  have hr := roundNat_le i.natAbs
  have hov : ¬ doubleOverflow ≤ roundNat i.natAbs := by
    have : (2 * 9223372036854775808 : Nat) < doubleOverflow := by decide
    omega
  unfold toDouble
  rw [if_neg hov]
  split
  · exact ⟨_, rfl⟩
  · exact ⟨_, rfl⟩

theorem mul_zero_int (d : Int) : JSNum.mul (.int 0) (.int d) = .int 0 := by
  show toDouble (0 * d) = .int 0
  rw [zero_mul]
  exact toDouble_exact 0 (by norm_num)

theorem toNumber_limitOf (q : ListQuery) (l : Int)
    (hq : q.limit.getD (UrlValue.int 10) = UrlValue.int l) :
    (limitOf q).toNumber = toDouble l ∧ parseInt (limitOf q) = toDouble l := by
  rcases q with ⟨search, sortBy, sortOrder, page, limit⟩
  rcases limit with _ | (j | t) <;> simp [Option.getD] at hq
  · subst hq
    exact ⟨(by decide : JSNum.int 10 = toDouble 10), (by decide : JSNum.int 10 = toDouble 10)⟩
  · subst hq; exact ⟨rfl, rfl⟩

theorem toNumber_pageOf (q : ListQuery) (p : Int)
    (hq : q.page.getD (UrlValue.int 1) = UrlValue.int p) :
    (pageOf q).toNumber = toDouble p ∧ parseInt (pageOf q) = toDouble p := by
  rcases q with ⟨search, sortBy, sortOrder, page, limit⟩
  rcases page with _ | (j | t) <;> simp [Option.getD] at hq
  · subst hq
    exact ⟨(by decide : JSNum.int 1 = toDouble 1), (by decide : JSNum.int 1 = toDouble 1)⟩
  · subst hq; exact ⟨rfl, rfl⟩

theorem asInteger_limitOf (q : ListQuery) (l : Int)
    (hq : q.limit.getD (UrlValue.int 10) = UrlValue.int l)
    (h0 : 0 ≤ l) (h : l ≤ 9223372036854775807) :
    Bound.asInteger (some (Bound.js (limitOf q))) = some l := by
  rcases q with ⟨search, sortBy, sortOrder, page, limit⟩
  rcases limit with _ | (j | t) <;> simp [Option.getD] at hq
  · subst hq
    exact (by decide : Bound.asInteger (some (Bound.js (.number (.int 10)))) = some 10)
  · subst hq
    show (if -9223372036854775808 ≤ j ∧ j < 9223372036854775808 then some j else none) = some j
    rw [if_pos ⟨by omega, by omega⟩]

theorem asInteger_number (i : Int) (h : |i| ≤ 9007199254740992) :
    Bound.asInteger (some (Bound.js (.number (.int i)))) = some i := by
  rw [abs_le] at h
  show (if -9223372036854775808 < i ∧ i < 9223372036854775808 then some i else none) = some i
  rw [if_pos ⟨by omega, by omega⟩]

theorem offsetOf_nonNumeric (q : ListQuery)
    (h : q.page.getD (UrlValue.int 1) ∈ Set.range UrlValue.nonNumeric) :
    offsetOf q = .nan := by
  obtain ⟨t, ht⟩ := h
  rcases q with ⟨search, sortBy, sortOrder, page, limit⟩
  rcases page with _ | (j | t') <;> simp [Option.getD] at ht
  subst ht
  show JSNum.mul (JSNum.sub JSNum.nan (JSNum.int 1)) _ = _
  generalize JSVal.toNumber _ = x
  cases x <;> rfl

theorem offsetOf_exact (q : ListQuery) (p l : Int)
    (hp : q.page.getD (UrlValue.int 1) = UrlValue.int p)
    (hl : q.limit.getD (UrlValue.int 10) = UrlValue.int l)
    (bp : |p| ≤ 9007199254740992) (bl : |l| ≤ 9007199254740992)
    (bm : |p - 1| ≤ 9007199254740992) (bo : |(p - 1) * l| ≤ 9007199254740992) :
    offsetOf q = .int ((p - 1) * l) := by
  unfold offsetOf
  rw [(toNumber_pageOf q p hp).1, (toNumber_limitOf q l hl).1, toDouble_exact p bp,
    toDouble_exact l bl]
  show JSNum.mul (toDouble (p - 1)) (.int l) = _
  rw [toDouble_exact _ bm]
  show toDouble ((p - 1) * l) = _
  exact toDouble_exact _ bo

theorem offsetOf_first_page (q : ListQuery) (l : Int)
    (hp : q.page.getD (UrlValue.int 1) = UrlValue.int 1)
    (hl : q.limit.getD (UrlValue.int 10) = UrlValue.int l)
    (bl : |l| ≤ 9223372036854775808) :
    offsetOf q = .int 0 := by
  unfold offsetOf
  rw [(toNumber_pageOf q 1 hp).1, (toNumber_limitOf q l hl).1,
    toDouble_exact 1 (by norm_num)]
  show JSNum.mul (toDouble (1 - 1)) _ = _
  rw [sub_self, toDouble_exact 0 (by norm_num)]
  obtain ⟨d, hd⟩ := toDouble_finite l bl
  rw [hd]
  exact mul_zero_int d

/-! ## Lemmas on the listing handler -/

theorem searchFilter_false (params : List Bound) :
    searchFilter false params = fun _ => true := by
  funext c; simp [searchFilter]

theorem searchFilter_pattern (search : Option String) (hs : falsy search = false)
    (rest : List Bound) :
    searchFilter true (Bound.text ("%" ++ fieldText search ++ "%")
      :: Bound.text ("%" ++ fieldText search ++ "%")
      :: Bound.text ("%" ++ fieldText search ++ "%") :: rest) = matchesSearch search := by
  funext c; simp [searchFilter, matchesSearch, hs, Bound.asText]

theorem matchesSearch_of_falsy (search : Option String) (hs : falsy search = true) :
    matchesSearch search = fun _ => true := by
  funext c; simp [matchesSearch, hs]

theorem listCustomers_unfold (s : Store) (q : ListQuery) :
    listCustomers s q =
      match getTotal s (countStatement q) (searchParams q.search) with
      | .error message =>
        { response := fail 400 message, store := s,
          issued := [(Sql.selectCustomers (countStatement q), searchParams q.search)] }
      | .ok total =>
        match allCustomers s (dataStatement q)
            (searchParams q.search ++ [Bound.js (limitOf q), Bound.js (.number (offsetOf q))]) with
        | .error message =>
          { response := fail 400 message, store := s,
            issued := [(Sql.selectCustomers (countStatement q), searchParams q.search),
              (Sql.selectCustomers (dataStatement q),
               searchParams q.search
                 ++ [Bound.js (limitOf q), Bound.js (.number (offsetOf q))])] }
        | .ok rows =>
          { response := json (.listing "Success" rows
              { page := parseInt (pageOf q), limit := parseInt (limitOf q), total := total,
                pages := ceilDiv total (limitOf q).toNumber }),
            store := s,
            issued := [(Sql.selectCustomers (countStatement q), searchParams q.search),
              (Sql.selectCustomers (dataStatement q),
               searchParams q.search
                 ++ [Bound.js (limitOf q), Bound.js (.number (offsetOf q))])] } := by
  rcases q with ⟨search, sortBy, sortOrder, page, limit⟩
  cases hs : falsy search <;>
    simp only [listCustomers, countStatement, dataStatement, searchParams, offsetOf, pageOf,
      limitOf, hs] <;> rfl

theorem getTotal_count (s : Store) (q : ListQuery) :
    getTotal s (countStatement q) (searchParams q.search)
      = .ok (s.customers.filter (matchesSearch q.search)).length := by
  cases hs : falsy q.search
  · simp [getTotal, selectRows, countStatement, searchParams, CustomerSelect.placeholders, hs,
      searchFilter_pattern q.search hs]
  · simp [getTotal, selectRows, countStatement, searchParams, CustomerSelect.placeholders, hs,
      searchFilter_false, matchesSearch_of_falsy q.search hs]

theorem allCustomers_data (s : Store) (q : ListQuery) (limit offset : Bound) :
    allCustomers s (dataStatement q) (searchParams q.search ++ [limit, offset]) =
      match Bound.asInteger (some limit), Bound.asInteger (some offset) with
      | some l, some o => .ok (limitOffset l o (sortedMatches s q))
      | _, _ => .error mismatchMessage := by
  cases hs : falsy q.search
  · simp [allCustomers, selectRows, dataStatement, searchParams, CustomerSelect.placeholders,
      hs, searchFilter_pattern q.search hs, sortedMatches]
  · simp [allCustomers, selectRows, dataStatement, searchParams, CustomerSelect.placeholders,
      hs, searchFilter_false, matchesSearch_of_falsy q.search hs, sortedMatches]

theorem listCustomers_response (s : Store) (q : ListQuery) :
    (listCustomers s q).response =
      match Bound.asInteger (some (.js (limitOf q))),
            Bound.asInteger (some (.js (.number (offsetOf q)))) with
      | some l, some o =>
        json (.listing "Success" (limitOffset l o (sortedMatches s q))
          { page := parseInt (pageOf q), limit := parseInt (limitOf q),
            total := (s.customers.filter (matchesSearch q.search)).length,
            pages := ceilDiv (s.customers.filter (matchesSearch q.search)).length
              (limitOf q).toNumber })
      | _, _ => fail 400 mismatchMessage := by
  rw [listCustomers_unfold, getTotal_count, allCustomers_data]
  cases Bound.asInteger (some (Bound.js (limitOf q))) <;>
    cases Bound.asInteger (some (Bound.js (.number (offsetOf q)))) <;> rfl

/-! ## C1: page count and row bound -/

/-- C1 (as stated, refuted): with `limit=0` the listing answers with `pages` equal to
`Infinity`, which is no integer, and with `limit=-1` it returns one row, more than
the limit, because the engine reads a negative `LIMIT` as no limit. -/
theorem listCustomers_limit_zero_or_negative :
    (listCustomers oneCustomer { plainQuery with limit := some (.int 0) }).response =
        json (.listing "Success" []
          { page := .int 1, limit := .int 0, total := 1, pages := .posInf })
    ∧ (listCustomers oneCustomer { plainQuery with limit := some (.int (-1)) }).response =
        json (.listing "Success" [ann]
          { page := .int 1, limit := .int (-1), total := 1, pages := .int (-1) }) := by
  decide

/-- C1 (amended): when `limit` is omitted (then 10) or a positive decimal integer
`l` of at most `2 ^ 53`, every listing response has `pages` equal to the integer
ceiling of `total / l` and carries at most `l` rows.  The response is such a listing
whenever `page` is omitted or a decimal integer `p` with `|p|` and
`|(p - 1) * l|` at most `2 ^ 53`, and it is the engine's datatype error (400) when
`page` is not numeric. -/
theorem listCustomers_pages_and_row_bound (s : Store) (q : ListQuery) (l : Int)
    (hl : 0 < l) (hsafe : l ≤ 9007199254740992)
    (hq : q.limit.getD (UrlValue.int 10) = UrlValue.int l) :
    (∀ msg rows pg, (listCustomers s q).response.body = .listing msg rows pg →
      pg.pages = .int (Int.ceil ((pg.total : ℚ) / (l : ℚ))) ∧ (rows.length : Int) ≤ l)
    ∧ (∀ p : Int, q.page.getD (UrlValue.int 1) = UrlValue.int p →
        |p| ≤ 9007199254740992 → |(p - 1) * l| ≤ 9007199254740992 →
        ∃ rows pg, (listCustomers s q).response = json (.listing "Success" rows pg)
          ∧ pg.pages = .int (Int.ceil ((pg.total : ℚ) / (l : ℚ)))
          ∧ (rows.length : Int) ≤ l)
    ∧ (q.page.getD (UrlValue.int 1) ∈ Set.range UrlValue.nonNumeric →
      (listCustomers s q).response = fail 400 mismatchMessage) := by
  have hl0 : l ≠ 0 := by omega
  have habs : |l| ≤ 9007199254740992 := by rw [abs_le]; constructor <;> omega
  have hlim := asInteger_limitOf q l hq (le_of_lt hl) (by omega)
  have hnum : (limitOf q).toNumber = .int l := by
    rw [(toNumber_limitOf q l hq).1, toDouble_exact l habs]
  have hresp := listCustomers_response s q
  rw [hlim, hnum] at hresp
  refine ⟨?_, ?_, ?_⟩
  · intro msg rows pg h
    rw [hresp] at h
    cases ho : Bound.asInteger (some (Bound.js (.number (offsetOf q)))) with
    | none => rw [ho] at h; simp [fail] at h
    | some o =>
      rw [ho] at h
      simp only [json, Payload.listing.injEq] at h
      obtain ⟨_, hrows, hpg⟩ := h
      rw [← hrows, ← hpg]
      exact ⟨ceilDiv_int _ _ hl0, length_limitOffset_le _ _ (le_of_lt hl) _⟩
  · intro p hp bp bo
    have bm : |p - 1| ≤ 9007199254740992 := by
      have h1 : |p - 1| ≤ |p - 1| * l :=
        le_mul_of_one_le_right (abs_nonneg _) (by omega)
      have h2 : |(p - 1) * l| = |p - 1| * l := by
        rw [abs_mul, abs_of_pos hl]
      omega
    rw [hresp, offsetOf_exact q p l hp hq bp habs bm bo, asInteger_number _ bo]
    exact ⟨_, _, rfl, ceilDiv_int _ _ hl0, length_limitOffset_le _ _ (le_of_lt hl) _⟩
  · intro hp
    rw [hresp, offsetOf_nonNumeric q hp]
    rfl

/-- Witness for C1 (amended): the request without parameters on a one-customer store. -/
theorem listCustomers_pages_and_row_bound_witness :
    (0 : Int) < 10 ∧ plainQuery.limit.getD (UrlValue.int 10) = UrlValue.int 10
    ∧ ∃ rows pg, (listCustomers oneCustomer plainQuery).response
          = json (.listing "Success" rows pg)
        ∧ pg.pages = .int (Int.ceil ((pg.total : ℚ) / ((10 : Int) : ℚ)))
        ∧ (rows.length : Int) ≤ 10 :=
  ⟨by decide, rfl,
    (listCustomers_pages_and_row_bound oneCustomer plainQuery 10 (by decide) (by decide)
      rfl).2.1 1 rfl (by decide) (by decide)⟩

/-! ## `LIKE` with a pattern `%term%` -/

theorem likeMatch_percent (p s : List Char) :
    likeMatch ('%' :: p) s = s.tails.any (fun t => likeMatch p t) := by
  rw [likeMatch]

theorem likeMatch_plain_nil (a : Char) (p : List Char) (h1 : a ≠ '%') (h2 : a ≠ '_') :
    likeMatch (a :: p) [] = false := by
  rw [likeMatch]
  · exact h1
  · exact h2

theorem likeMatch_plain_cons (a : Char) (p : List Char) (c : Char) (t : List Char)
    (h1 : a ≠ '%') (h2 : a ≠ '_') :
    likeMatch (a :: p) (c :: t) = (a.toLower == c.toLower && likeMatch p t) := by
  rw [likeMatch]
  · exact h1
  · exact h2

/-- A wildcard-free pattern followed by `%` matches exactly the texts it is a prefix
of, up to ASCII case. -/
theorem likeMatch_leading (p : List Char) (hp : ∀ a ∈ p, a ≠ '%' ∧ a ≠ '_') (v : List Char) :
    likeMatch (p ++ ['%']) v = true ↔ p.map Char.toLower <+: v.map Char.toLower := by
  induction p generalizing v with
  | nil =>
    simp only [List.nil_append, likeMatch_percent, List.map_nil, List.nil_prefix, iff_true,
      List.any_eq_true]
    exact ⟨[], (List.mem_tails _ _).2 List.nil_suffix, by simp [likeMatch]⟩
  | cons a p ih =>
    have ha := hp a (List.mem_cons_self _ _)
    have hp' : ∀ b ∈ p, b ≠ '%' ∧ b ≠ '_' := fun b hb => hp b (List.mem_cons_of_mem _ hb)
    cases v with
    | nil => simp [likeMatch_plain_nil a _ ha.1 ha.2]
    | cons c t =>
      rw [List.cons_append, likeMatch_plain_cons a _ c t ha.1 ha.2]
      simp [List.cons_prefix_cons, ih hp' t]

/-- The pattern `%term%` with a wildcard-free term matches exactly the texts that
contain the term, up to ASCII case. -/
theorem likeMatch_inside (p : List Char) (hp : ∀ a ∈ p, a ≠ '%' ∧ a ≠ '_') (v : List Char) :
    likeMatch ('%' :: (p ++ ['%'])) v = true ↔ p.map Char.toLower <:+: v.map Char.toLower := by
  rw [likeMatch_percent, List.any_eq_true, List.infix_iff_prefix_suffix]
  constructor
  · rintro ⟨t, ht, hm⟩
    exact ⟨t.map Char.toLower, (likeMatch_leading p hp t).1 hm,
      ((List.mem_tails _ _).1 ht).map _⟩
  · rintro ⟨t', hpre, hsuf⟩
    rw [List.suffix_iff_eq_drop] at hsuf
    rw [← List.map_drop] at hsuf
    rw [hsuf] at hpre
    exact ⟨_, (List.mem_tails _ _).2 (List.drop_suffix _ _), (likeMatch_leading p hp _).2 hpre⟩

theorem like_pattern_iff (value term : String)
    (hw : ∀ a ∈ term.data, a ≠ '%' ∧ a ≠ '_') :
    like value (some ("%" ++ term ++ "%")) = true ↔ containsIgnoringCase value term := by
  unfold like containsIgnoringCase
  have : ("%" ++ term ++ "%").data = '%' :: (term.data ++ ['%']) := by
    simp [String.data_append]
  simp only [this]
  exact likeMatch_inside term.data hw value.data

theorem matchesSearch_iff (term : String) (hne : term ≠ "")
    (hw : ∀ a ∈ term.data, a ≠ '%' ∧ a ≠ '_') (c : Customer) :
    matchesSearch (some term) c = true ↔ termOccurs term c := by
  have hf : falsy (some term) = false := by
    cases term with
    | mk d =>
      cases d with
      | nil => exact absurd rfl hne
      | cons a d => rfl
  simp only [matchesSearch, hf, fieldText, Option.getD, Bool.false_or, Bool.or_eq_true,
    like_pattern_iff _ term hw, termOccurs]
  tauto

theorem limitOffset_all {α : Type} (l : Int) (rows : List α) (h : (rows.length : Int) ≤ l) :
    limitOffset l 0 rows = rows := by
  unfold limitOffset
  rw [if_neg (by omega)]
  simp only [Int.toNat_zero, List.drop_zero]
  exact List.take_of_length_le (by omega)

theorem mem_sortedMatches (s : Store) (q : ListQuery) (c : Customer) :
    c ∈ sortedMatches s q ↔ c ∈ s.customers ∧ matchesSearch q.search c = true := by
  unfold sortedMatches orderBy
  rw [(List.perm_insertionSort _ _).mem_iff, List.mem_filter]

theorem length_sortedMatches (s : Store) (q : ListQuery) :
    (sortedMatches s q).length = (s.customers.filter (matchesSearch q.search)).length := by
  unfold sortedMatches orderBy
  rw [List.length_insertionSort]

/-! ## C2: search -/

/-- C2 (as stated, refuted): the term `_` returns the customer Ann Lee although none
of her three fields contains an underscore, and the term `é` does not return the
customer Émile, whose first name contains that letter in upper case. -/
theorem listCustomers_search_wildcard_and_accent :
    (listCustomers oneCustomer { plainQuery with search := some "_" }).response =
        json (.listing "Success" [ann]
          { page := .int 1, limit := .int 10, total := 1, pages := .int 1 })
    ∧ ¬ termOccurs "_" ann
    ∧ (listCustomers emileStore { plainQuery with search := some "é" }).response =
        json (.listing "Success" []
          { page := .int 1, limit := .int 10, total := 0, pages := .int 0 }) := by
  decide

/-- C2 (amended): for a non-empty search term without `%` and `_`, on the first page
with a limit `l` that holds all matches and is a 64-bit integer (at most
`2 ^ 63 - 1`), the listing returns exactly the customers one of whose `first_name`,
`last_name`, `phone_number` contains the term as a substring up to the case of the
ASCII letters. -/
theorem listCustomers_search_exact (s : Store) (q : ListQuery) (term : String) (l : Int)
    (hq : q.search = some term) (hne : term ≠ "")
    (hw : ∀ a ∈ term.data, a ≠ '%' ∧ a ≠ '_')
    (hpage : q.page.getD (UrlValue.int 1) = UrlValue.int 1)
    (hlimit : q.limit.getD (UrlValue.int 10) = UrlValue.int l)
    (hint64 : l ≤ 9223372036854775807)
    (hroom : ((s.customers.filter (fun c => decide (termOccurs term c))).length : Int) ≤ l) :
    ∃ rows pg, (listCustomers s q).response = json (.listing "Success" rows pg)
      ∧ ∀ c, c ∈ rows ↔ c ∈ s.customers ∧ termOccurs term c := by
  have hfilter : s.customers.filter (matchesSearch q.search)
      = s.customers.filter (fun c => decide (termOccurs term c)) := by
    apply List.filter_congr
    intro c _
    rw [hq]
    by_cases h : termOccurs term c
    · simp [h, (matchesSearch_iff term hne hw c).2 h]
    · have : matchesSearch (some term) c = false := by
        rw [Bool.eq_false_iff]; exact fun h' => h ((matchesSearch_iff term hne hw c).1 h')
      simp [h, this]
  have hlen : ((sortedMatches s q).length : Int) ≤ l := by
    rw [length_sortedMatches, hfilter]; exact hroom
  have hmem : ∀ c, c ∈ sortedMatches s q ↔ c ∈ s.customers ∧ termOccurs term c := by
    intro c
    rw [mem_sortedMatches, hq, matchesSearch_iff term hne hw c]
  have h0 : 0 ≤ l := le_trans (Int.ofNat_nonneg _) hroom
  have habs : |l| ≤ 9223372036854775808 := by rw [abs_le]; constructor <;> omega
  rw [listCustomers_response, asInteger_limitOf q l hlimit h0 hint64,
    offsetOf_first_page q l hpage hlimit habs, asInteger_number 0 (by norm_num)]
  refine ⟨_, _, rfl, ?_⟩
  rw [limitOffset_all _ _ hlen]
  exact hmem

/-- Witness for C2 (amended): searching `ann` on the one-customer store. -/
theorem listCustomers_search_exact_witness :
    ∃ rows pg, (listCustomers oneCustomer { plainQuery with search := some "ann" }).response
        = json (.listing "Success" rows pg)
      ∧ ∀ c, c ∈ rows ↔ c ∈ oneCustomer.customers ∧ termOccurs "ann" c :=
  listCustomers_search_exact oneCustomer { plainQuery with search := some "ann" } "ann" 10
    rfl (by decide) (by decide) rfl rfl (by decide) (by decide)

/-! ## C3: count query and data query -/

theorem listCustomers_issued (s : Store) (q : ListQuery) :
    (listCustomers s q).issued =
      [(Sql.selectCustomers (countStatement q), searchParams q.search),
       (Sql.selectCustomers (dataStatement q),
        searchParams q.search ++ [Bound.js (limitOf q), Bound.js (.number (offsetOf q))])] := by
  rw [listCustomers_unfold, getTotal_count]
  simp only []
  split <;> rfl

theorem searchFilter_searchParams (q : ListQuery) (rest : List Bound) :
    searchFilter (!falsy q.search) (searchParams q.search ++ rest) = matchesSearch q.search := by
  cases hs : falsy q.search
  · simp only [searchParams, hs, Bool.not_false, Bool.false_eq_true, if_false]
    exact searchFilter_pattern q.search hs rest
  · simp only [Bool.not_true, searchFilter_false, matchesSearch_of_falsy q.search hs]

theorem listing_total (s : Store) (q : ListQuery) (msg : String) (rows : List Customer)
    (pg : Pagination) (h : (listCustomers s q).response.body = .listing msg rows pg) :
    pg.total = (s.customers.filter (matchesSearch q.search)).length := by
  rw [listCustomers_response] at h
  split at h
  · simp only [json, Payload.listing.injEq] at h
    rw [← h.2.2]
  · simp [fail] at h

/-- C3: the listing issues a count statement and a data statement with the same
`WHERE` clause; the data statement's parameters are the count statement's parameters
followed by exactly two more (limit, offset), for an absent, empty or non-empty
search alike; both statements filter by the predicate the search value stands for;
and `pagination.total` is the number of customers satisfying that predicate, an
expression in which page, limit, sortBy and sortOrder do not occur. -/
theorem listCustomers_count_agrees_with_data (s : Store) (q : ListQuery) :
    ∃ countSql sql countParams limit offset,
      (listCustomers s q).issued =
        [(Sql.selectCustomers countSql, countParams),
         (Sql.selectCustomers sql, countParams ++ [limit, offset])]
      ∧ countParams = (countParams ++ [limit, offset]).take
          ((countParams ++ [limit, offset]).length - 2)
      ∧ countSql.count = true ∧ sql.count = false
      ∧ countSql.searchCondition = sql.searchCondition
      ∧ searchFilter countSql.searchCondition countParams = matchesSearch q.search
      ∧ searchFilter sql.searchCondition (countParams ++ [limit, offset])
          = matchesSearch q.search
      ∧ getTotal s countSql countParams
          = .ok (s.customers.filter (matchesSearch q.search)).length
      ∧ ∀ msg rows pg, (listCustomers s q).response.body = .listing msg rows pg →
          pg.total = (s.customers.filter (matchesSearch q.search)).length := by
  refine ⟨countStatement q, dataStatement q, searchParams q.search, Bound.js (limitOf q),
    Bound.js (.number (offsetOf q)), listCustomers_issued s q, ?_, rfl, rfl, rfl, ?_, ?_, ?_, ?_⟩
  · simp
  · have := searchFilter_searchParams q []
    simpa [countStatement] using this
  · exact searchFilter_searchParams q _
  · have hf := searchFilter_searchParams q []
    rw [List.append_nil] at hf
    have hlen : ¬ ((countStatement q).placeholders < (searchParams q.search).length) := by
      cases hs : falsy q.search <;>
        simp [countStatement, CustomerSelect.placeholders, searchParams, hs]
    simp only [getTotal, selectRows, if_neg hlen]
    simp [countStatement, hf]
  · exact fun msg rows pg h => listing_total s q msg rows pg h

/-! ## C4: the page window -/

theorem getElem?_limitOffset {α : Type} (l o : Int) (hl : 0 ≤ l) (rows : List α) (k : Nat) :
    (limitOffset l o rows)[k]? = if (k : Int) < l then rows[o.toNat + k]? else none := by
  unfold limitOffset
  rw [if_neg (by omega), List.getElem?_take, List.getElem?_drop]
  by_cases h : (k : Int) < l
  · rw [if_pos h, if_pos (by omega)]
  · rw [if_neg h, if_neg (by omega)]

theorem length_limitOffset {α : Type} (l o : Int) (hl : 0 ≤ l) (rows : List α) :
    (limitOffset l o rows).length = min l.toNat (rows.length - o.toNat) := by
  unfold limitOffset
  rw [if_neg (by omega), List.length_take, List.length_drop]

/-- C4 (as stated, refuted): with `page=3` and `limit=9223372036854775807`, both
positive integers, the offset is the double `2 ^ 64`, which the engine rejects, and
the answer is 400 instead of a page; with `limit=9007199254740993` the response
echoes the limit as `9007199254740992`. -/
theorem listCustomers_large_page_or_limit :
    (listCustomers oneCustomer hugeLimitPageThree).response = fail 400 mismatchMessage
    ∧ (listCustomers oneCustomer unsafeLimit).response =
        json (.listing "Success" [ann]
          { page := .int 1, limit := .int 9007199254740992, total := 1, pages := .int 1 }) := by
  decide

/-- C4 (amended): for positive integers `page` and `limit` of at most `2 ^ 53` whose
offset `(page - 1) * limit` is at most `2 ^ 53` too, the listing binds
`offset = (page - 1) * limit` as the last parameter of the data statement, echoes
`page` and `limit` as integers, and returns the rows at positions
`offset .. offset + limit - 1` of the filtered, sorted sequence (fewer when the
sequence ends earlier); with 15 matching rows, `page=2` and `limit=10` give
`{page: 2, limit: 10, total: 15, pages: 2}` and 5 rows. -/
theorem listCustomers_page_window (s : Store) (q : ListQuery) (p l : Int)
    (hp : 0 < p) (hl : 0 < l)
    (bp : p ≤ 9007199254740992) (bl : l ≤ 9007199254740992)
    (bo : (p - 1) * l ≤ 9007199254740992)
    (hpage : q.page = some (UrlValue.int p)) (hlimit : q.limit = some (UrlValue.int l)) :
    ∃ rows pg, (listCustomers s q).response = json (.listing "Success" rows pg)
      ∧ (listCustomers s q).issued.getLast? = some (Sql.selectCustomers (dataStatement q),
          searchParams q.search ++ [Bound.js (.string (.int l)),
            Bound.js (.number (.int ((p - 1) * l)))])
      ∧ pg.page = .int p ∧ pg.limit = .int l
      ∧ pg.total = (sortedMatches s q).length
      ∧ pg.pages = .int (Int.ceil ((pg.total : ℚ) / (l : ℚ)))
      ∧ (∀ k : Nat, rows[k]? =
          if (k : Int) < l then (sortedMatches s q)[((p - 1) * l).toNat + k]? else none)
      ∧ rows.length = min l.toNat ((sortedMatches s q).length - ((p - 1) * l).toNat)
      ∧ ((sortedMatches s q).length = 15 → p = 2 → l = 10 →
          rows.length = 5 ∧ pg = { page := .int 2, limit := .int 10, total := 15, pages := .int 2 })
    := by
  have hl0 : l ≠ 0 := by omega
  have hgp : q.page.getD (UrlValue.int 1) = UrlValue.int p := by rw [hpage]; rfl
  have hgl : q.limit.getD (UrlValue.int 10) = UrlValue.int l := by rw [hlimit]; rfl
  have ap : |p| ≤ 9007199254740992 := by rw [abs_le]; constructor <;> omega
  have al : |l| ≤ 9007199254740992 := by rw [abs_le]; constructor <;> omega
  have am : |p - 1| ≤ 9007199254740992 := by rw [abs_le]; constructor <;> omega
  have hnn : 0 ≤ (p - 1) * l := mul_nonneg (by omega) (le_of_lt hl)
  have ao : |(p - 1) * l| ≤ 9007199254740992 := by rw [abs_of_nonneg hnn]; exact bo
  have hoff := offsetOf_exact q p l hgp hgl ap al am ao
  have hresp := listCustomers_response s q
  have hiss := listCustomers_issued s q
  have hL : limitOf q = .string (.int l) := by simp [limitOf, hlimit]
  rw [asInteger_limitOf q l hgl (le_of_lt hl) (by omega), hoff, asInteger_number _ ao,
    (toNumber_pageOf q p hgp).2, (toNumber_limitOf q l hgl).2, (toNumber_limitOf q l hgl).1,
    toDouble_exact p ap, toDouble_exact l al, ceilDiv_int _ _ hl0,
    ← length_sortedMatches] at hresp
  refine ⟨_, _, hresp, ?_, rfl, rfl, rfl, rfl,
    getElem?_limitOffset l _ (le_of_lt hl) _, length_limitOffset l _ (le_of_lt hl) _, ?_⟩
  · rw [hiss, hoff, hL]
    simp
  · intro h15 h2 h10
    subst h2 h10
    rw [length_limitOffset _ _ (by decide), h15]
    have hc : Int.ceil (((15 : Nat) : ℚ) / ((10 : Int) : ℚ)) = 2 := by
      rw [Int.ceil_eq_iff]; norm_num
    exact ⟨by decide, by rw [hc]⟩

/-- Witness for C4 (amended): page 2 with limit 10 on a store of fifteen customers. -/
theorem listCustomers_page_window_witness :
    ∃ rows pg, (listCustomers fifteen pageTwoOfTen).response
        = json (.listing "Success" rows pg)
      ∧ rows.length = 5
      ∧ pg = { page := .int 2, limit := .int 10, total := 15, pages := .int 2 } := by
  obtain ⟨rows, pg, h1, _, _, _, _, _, _, _, h9⟩ :=
    listCustomers_page_window fifteen pageTwoOfTen 2 10 (by decide) (by decide) (by decide)
      (by decide) (by decide) rfl rfl
  exact ⟨rows, pg, h1, h9 (by rw [length_sortedMatches]; decide) rfl rfl⟩

/-! ## C5: defaults and ordering -/

theorem textLe_total (a b : List Char) : textLe a b = true ∨ textLe b a = true := by
  induction a generalizing b with
  | nil => left; simp [textLe]
  | cons x a ih =>
    cases b with
    | nil => right; simp [textLe]
    | cons y b =>
      simp only [textLe, Bool.or_eq_true, Bool.and_eq_true, decide_eq_true_eq, beq_iff_eq]
      rcases Nat.lt_trichotomy x.toNat y.toNat with h | h | h
      · exact Or.inl (Or.inl h)
      · rcases ih b with h' | h'
        · exact Or.inl (Or.inr ⟨h, h'⟩)
        · exact Or.inr (Or.inr ⟨h.symm, h'⟩)
      · exact Or.inr (Or.inl h)

theorem textLe_trans (a b c : List Char) (h1 : textLe a b = true) (h2 : textLe b c = true) :
    textLe a c = true := by
  induction a generalizing b c with
  | nil => simp [textLe]
  | cons x a ih =>
    cases b with
    | nil => simp [textLe] at h1
    | cons y b =>
      cases c with
      | nil => simp [textLe] at h2
      | cons z c =>
        simp only [textLe, Bool.or_eq_true, Bool.and_eq_true, decide_eq_true_eq,
          beq_iff_eq] at h1 h2 ⊢
        rcases h1 with h1 | ⟨e1, h1⟩ <;> rcases h2 with h2 | ⟨e2, h2⟩
        · exact Or.inl (by omega)
        · exact Or.inl (by omega)
        · exact Or.inl (by omega)
        · exact Or.inr ⟨by omega, ih b c h1 h2⟩

theorem Column.le_total (col : Column) (a b : Customer) :
    col.le a b = true ∨ col.le b a = true := by
  cases col <;> simp only [Column.le, decide_eq_true_eq]
  · exact Nat.le_total _ _
  all_goals exact textLe_total _ _

theorem Column.le_trans (col : Column) (a b c : Customer) (h1 : col.le a b = true)
    (h2 : col.le b c = true) : col.le a c = true := by
  cases col <;> simp only [Column.le, decide_eq_true_eq] at h1 h2 ⊢
  · exact Nat.le_trans h1 h2
  all_goals exact textLe_trans _ _ _ h1 h2

theorem sorted_orderBy (col : Column) (ord : SortOrder) (rows : List Customer) :
    List.Sorted (fun a b => rowLe col ord a b = true) (orderBy col ord rows) := by
  haveI : IsTotal Customer (fun a b => rowLe col ord a b = true) :=
    ⟨fun a b => by cases ord <;> simp only [rowLe] <;> exact Column.le_total col _ _⟩
  haveI : IsTrans Customer (fun a b => rowLe col ord a b = true) :=
    ⟨fun a b c h1 h2 => by
      cases ord <;> simp only [rowLe] at h1 h2 ⊢
      · exact Column.le_trans col a b c h1 h2
      · exact Column.le_trans col c b a h2 h1⟩
  exact List.sorted_insertionSort _ _

theorem limitOffset_sublist {α : Type} (l o : Int) (rows : List α) :
    List.Sublist (limitOffset l o rows) rows := by
  unfold limitOffset
  split
  · exact List.drop_sublist _ _
  · exact (List.take_sublist _ _).trans (List.drop_sublist _ _)

theorem listing_rows_sorted (s : Store) (q : ListQuery) (msg : String) (rows : List Customer)
    (pg : Pagination) (h : (listCustomers s q).response.body = .listing msg rows pg) :
    List.Sorted (fun a b =>
      rowLe (q.sortBy.getD Column.last_name) (q.sortOrder.getD SortOrder.ASC) a b = true)
      rows := by
  rw [listCustomers_response] at h
  split at h
  · simp only [json, Payload.listing.injEq] at h
    rw [← h.2.1]
    exact (sorted_orderBy _ _ _).sublist (limitOffset_sublist _ _ _)
  · simp [fail] at h

/-- C5 (as stated, refuted): the request that omits the four parameters binds the
number `10` as its limit, the request that passes `limit=10` binds the text `10`;
the parameter lists of the two data statements differ. -/
theorem listCustomers_default_limit_is_number :
    (listCustomers oneCustomer (omittedDefaults none)).issued
      ≠ (listCustomers oneCustomer (explicitDefaults none)).issued := by
  decide

/-- C5 (amended): a request that omits sortBy, sortOrder, page and limit issues the
same two statements as the request passing `last_name`, `ASC`, `1`, `10`; the
parameters agree except that the omitted limit is the number `10` where the passed
one is the text `10`, both of which the store reads as the integer 10, with offset
0 in both; the two responses are equal.  In every listing response the rows are
ordered by the `sortBy` column in the `sortOrder` direction. -/
theorem listCustomers_defaults (s : Store) (search : Option String) :
    (listCustomers s (omittedDefaults search)).response
      = (listCustomers s (explicitDefaults search)).response
    ∧ (listCustomers s (omittedDefaults search)).issued.map Prod.fst
      = (listCustomers s (explicitDefaults search)).issued.map Prod.fst
    ∧ (listCustomers s (omittedDefaults search)).issued.map Prod.snd
      = [searchParams search,
         searchParams search ++ [Bound.js (.number (.int 10)), Bound.js (.number (.int 0))]]
    ∧ (listCustomers s (explicitDefaults search)).issued.map Prod.snd
      = [searchParams search,
         searchParams search ++ [Bound.js (.string (.int 10)), Bound.js (.number (.int 0))]]
    ∧ Bound.asInteger (some (Bound.js (.number (.int 10))))
      = Bound.asInteger (some (Bound.js (.string (.int 10))))
    ∧ ∀ (q : ListQuery) msg rows pg, (listCustomers s q).response.body = .listing msg rows pg →
        List.Sorted (fun a b =>
          rowLe (q.sortBy.getD Column.last_name) (q.sortOrder.getD SortOrder.ASC) a b = true)
          rows := by
  refine ⟨?_, ?_, ?_, ?_, rfl, fun q msg rows pg h => listing_rows_sorted s q msg rows pg h⟩
  · rw [listCustomers_response, listCustomers_response]
    rfl
  · rw [listCustomers_issued, listCustomers_issued]
    rfl
  · rw [listCustomers_issued]
    rfl
  · rw [listCustomers_issued]
    rfl

/-! ## Lemmas on create, read, update and delete -/

theorem falsy_some_eq_false (x : String) (h : x ≠ "") : falsy (some x) = false := by
  cases x with
  | mk d =>
    cases d with
    | nil => exact absurd rfl h
    | cons a d => rfl

theorem falsy_eq_true_iff (x : Option String) :
    falsy x = true ↔ x = none ∨ x = some "" := by
  cases x with
  | none => simp [falsy]
  | some v =>
    cases v with
    | mk d =>
      cases d with
      | nil => simp [falsy]
      | cons a d =>
        simp only [falsy, List.isEmpty_cons, Bool.false_eq_true, false_iff, not_or]
        refine ⟨by simp, fun h => ?_⟩
        have hd := congrArg (fun x => Option.map String.data x) h
        cases hd

theorem includes_uniqueMessage : includes uniqueMessage "UNIQUE constraint failed" = true := by
  decide

theorem any_phone_iff (customers : List Customer) (phone : String) :
    customers.any (fun c => c.phone_number == phone) = true
      ↔ ∃ c ∈ customers, c.phone_number = phone := by
  simp [List.any_eq_true]

/-- The two outcomes of a create request whose three fields are non-empty. -/
theorem createCustomer_valid (s : Store) (first last phone : String)
    (h1 : first ≠ "") (h2 : last ≠ "") (h3 : phone ≠ "") :
    createCustomer s ⟨some first, some last, some phone⟩ =
      if s.customers.any (fun c => c.phone_number == phone) then
        { response := fail 400 "Phone number already exists", store := s,
          issued := [(Sql.insertCustomer,
            [Bound.text first, Bound.text last, Bound.text phone])] }
      else
        { response := json (.customer "Customer created successfully"
            (newCustomer (nextId s.customerSeq (s.customers.map (fun c => c.id)))
              first last phone)),
          store := { s with
            customers := s.customers ++
              [newCustomer (nextId s.customerSeq (s.customers.map (fun c => c.id)))
                first last phone],
            customerSeq := nextId s.customerSeq (s.customers.map (fun c => c.id)) },
          issued := [(Sql.insertCustomer,
            [Bound.text first, Bound.text last, Bound.text phone])] } := by
  unfold createCustomer
  simp only [falsy_some_eq_false _ h1, falsy_some_eq_false _ h2, falsy_some_eq_false _ h3,
    Bool.or_self, Bool.false_eq_true, if_false, fieldText, Option.getD]
  by_cases hdup : s.customers.any (fun c => c.phone_number == phone) = true
  · simp [runInsertCustomer, Bound.asText, hdup, includes_uniqueMessage]
  · simp [runInsertCustomer, Bound.asText, hdup, newCustomer]

theorem createCustomer_invalid (s : Store) (body : CustomerBody)
    (h : (falsy body.first_name || falsy body.last_name || falsy body.phone_number) = true) :
    createCustomer s body =
      { response := fail 400 "All fields are required", store := s, issued := [] } := by
  unfold createCustomer
  rw [if_pos h]

theorem le_foldr_max (ids : List Nat) (a : Nat) (h : a ∈ ids) : a ≤ ids.foldr max 0 := by
  induction ids with
  | nil => cases h
  | cons b ids ih =>
    simp only [List.foldr_cons]
    rcases List.mem_cons.1 h with rfl | h'
    · exact le_max_left _ _
    · exact le_trans (ih h') (le_max_right _ _)

theorem lt_nextId (s : Store) (c : Customer) (h : c ∈ s.customers) :
    c.id < nextId s.customerSeq (s.customers.map (fun c => c.id)) := by
  have := le_foldr_max (s.customers.map (fun c => c.id)) c.id (List.mem_map_of_mem _ h)
  unfold nextId
  omega

theorem idMatches_int (id : Nat) (i : Int) :
    idMatches id (some (Bound.js (.string (.int i)))) = decide ((id : Int) = i) := rfl

theorem idMatches_false_of_ne (id : Nat) (u : UrlValue) (h : UrlValue.int id ≠ u) :
    idMatches id (some (Bound.js (.string u))) = false := by
  cases u with
  | int i =>
    rw [idMatches_int]
    simp only [decide_eq_false_iff_not]
    intro e
    exact h (by rw [e])
  | nonNumeric t => rfl

theorem length_filter_pos_of_any {α : Type} (l : List α) (p : α → Bool)
    (h : l.any p = true) : (l.filter p).length ≠ 0 := by
  obtain ⟨a, ha, hp⟩ := List.any_eq_true.1 h
  have : a ∈ l.filter p := List.mem_filter.2 ⟨ha, hp⟩
  exact fun h0 => by
    rw [List.length_eq_zero] at h0
    rw [h0] at this
    cases this

/-- The three outcomes of an update request whose three fields are non-empty. -/
theorem updateCustomer_valid (s : Store) (id : UrlValue) (first last phone : String)
    (h1 : first ≠ "") (h2 : last ≠ "") (h3 : phone ≠ "") :
    updateCustomer s id ⟨some first, some last, some phone⟩ =
      if s.customers.any (fun c => idMatches c.id (some (Bound.js (.string id)))) then
        if s.customers.any (fun c =>
            !idMatches c.id (some (Bound.js (.string id))) && c.phone_number == phone) then
          { response := fail 400 "Phone number already exists", store := s,
            issued := [(Sql.updateCustomer, [Bound.text first, Bound.text last,
              Bound.text phone, Bound.js (.string id)])] }
        else
          { response := json (.message "Customer updated successfully"),
            store := { s with customers := s.customers.map (fun c =>
              if idMatches c.id (some (Bound.js (.string id))) then
                { c with first_name := first, last_name := last, phone_number := phone }
              else c) },
            issued := [(Sql.updateCustomer, [Bound.text first, Bound.text last,
              Bound.text phone, Bound.js (.string id)])] }
      else
        { response := fail 404 "Customer not found", store := s,
          issued := [(Sql.updateCustomer, [Bound.text first, Bound.text last,
            Bound.text phone, Bound.js (.string id)])] } := by
  unfold updateCustomer
  simp only [falsy_some_eq_false _ h1, falsy_some_eq_false _ h2, falsy_some_eq_false _ h3,
    Bool.or_self, Bool.false_eq_true, if_false, fieldText, Option.getD]
  by_cases hhit : s.customers.any (fun c => idMatches c.id (some (Bound.js (.string id)))) = true
  · by_cases hdup : s.customers.any (fun c =>
        !idMatches c.id (some (Bound.js (.string id))) && c.phone_number == phone) = true
    · simp [runUpdateCustomer, Bound.asText, hhit, hdup, includes_uniqueMessage]
    · have hpos := length_filter_pos_of_any _ _ hhit
      simp [runUpdateCustomer, Bound.asText, hhit, hdup, hpos]
  · simp [runUpdateCustomer, Bound.asText, hhit]

theorem updateCustomer_invalid (s : Store) (id : UrlValue) (body : CustomerBody)
    (h : (falsy body.first_name || falsy body.last_name || falsy body.phone_number) = true) :
    updateCustomer s id body =
      { response := fail 400 "All fields are required", store := s, issued := [] } := by
  unfold updateCustomer
  rw [if_pos h]

theorem body_cases (body : CustomerBody) :
    (falsy body.first_name || falsy body.last_name || falsy body.phone_number) = true
    ∨ ∃ first last phone, first ≠ "" ∧ last ≠ "" ∧ phone ≠ ""
        ∧ body = ⟨some first, some last, some phone⟩ := by
  rcases body with ⟨f, l, p⟩
  by_cases h : (falsy f || falsy l || falsy p) = true
  · exact Or.inl h
  · right
    simp only [Bool.or_eq_true, not_or, Bool.not_eq_true] at h
    obtain ⟨⟨hf, hl⟩, hp⟩ := h
    have key : ∀ x : Option String, falsy x = false → ∃ v, v ≠ "" ∧ x = some v := by
      intro x hx
      cases x with
      | none => simp [falsy] at hx
      | some v =>
        refine ⟨v, fun hv => ?_, rfl⟩
        subst hv
        simp [falsy] at hx
    obtain ⟨f', hf', rfl⟩ := key f hf
    obtain ⟨l', hl', rfl⟩ := key l hl
    obtain ⟨p', hp', rfl⟩ := key p hp
    exact ⟨f', l', p', hf', hl', hp', rfl⟩

theorem invariants_iff (s : Store) :
    (UniqueIds s ∧ UniquePhones s) ↔
      s.customers.Pairwise (fun a b => a.id ≠ b.id ∧ a.phone_number ≠ b.phone_number) := by
  unfold UniqueIds UniquePhones List.Nodup
  rw [List.pairwise_map, List.pairwise_map, ← List.pairwise_and_iff]

theorem createCustomer_preserves (s : Store) (body : CustomerBody)
    (h : UniqueIds s ∧ UniquePhones s) :
    UniqueIds (createCustomer s body).store ∧ UniquePhones (createCustomer s body).store := by
  rcases body_cases body with hbad | ⟨first, last, phone, h1, h2, h3, rfl⟩
  · rw [createCustomer_invalid s body hbad]; exact h
  · rw [createCustomer_valid s first last phone h1 h2 h3]
    split
    · exact h
    · rename_i hdup
      rw [invariants_iff] at h ⊢
      simp only [List.pairwise_append, List.pairwise_singleton, List.mem_singleton, true_and,
        forall_eq]
      refine ⟨h, fun c hc => ⟨?_, ?_⟩⟩
      · have := lt_nextId s c hc
        simp only [newCustomer]
        omega
      · intro e
        exact hdup ((any_phone_iff _ _).2 ⟨c, hc, e⟩)

theorem updateCustomer_preserves (s : Store) (id : UrlValue) (body : CustomerBody)
    (h : UniqueIds s ∧ UniquePhones s) :
    UniqueIds (updateCustomer s id body).store
      ∧ UniquePhones (updateCustomer s id body).store := by
  rcases body_cases body with hbad | ⟨first, last, phone, h1, h2, h3, rfl⟩
  · rw [updateCustomer_invalid s id body hbad]; exact h
  · rw [updateCustomer_valid s id first last phone h1 h2 h3]
    split
    · split
      · exact h
      · rename_i hhit hdup
        rw [invariants_iff] at h ⊢
        simp only [List.pairwise_map]
        refine h.imp_of_mem ?_
        intro a b ha hb hab
        have hnd : ∀ c ∈ s.customers,
            idMatches c.id (some (Bound.js (.string id))) = false → c.phone_number ≠ phone := by
          intro c hc hm e
          apply hdup
          rw [List.any_eq_true]
          exact ⟨c, hc, by simp [hm, e]⟩
        have hsame : ∀ c d : Customer,
            idMatches c.id (some (Bound.js (.string id))) = true →
            idMatches d.id (some (Bound.js (.string id))) = true → c.id = d.id := by
          intro c d hc hd
          cases id with
          | int i =>
            rw [idMatches_int, decide_eq_true_eq] at hc hd
            omega
          | nonNumeric t => cases hc
        cases hma : idMatches a.id (some (Bound.js (.string id))) <;>
          cases hmb : idMatches b.id (some (Bound.js (.string id)))
        · simpa using hab
        · simp only [Bool.false_eq_true, if_false, if_true]
          exact ⟨hab.1, hnd a ha hma⟩
        · simp only [Bool.false_eq_true, if_false, if_true]
          exact ⟨hab.1, fun e => hnd b hb hmb e.symm⟩
        · exact absurd (hsame a b hma hmb) hab.1
    · exact h

/-! ## C6: duplicate phone numbers -/

/-- C6: on a store with unique ids and unique phone numbers, a create request with
three non-empty fields whose phone number belongs to a stored customer is answered
400 `Phone number already exists` and leaves the store as it was; and after any
create request and after any update request the phone numbers (and ids) of the
store are still unique. -/
theorem phone_number_stays_unique (s : Store) (id : UrlValue) (body : CustomerBody)
    (first last phone : String) (hids : UniqueIds s) (hphones : UniquePhones s)
    (h1 : first ≠ "") (h2 : last ≠ "") (h3 : phone ≠ "")
    (hdup : ∃ c ∈ s.customers, c.phone_number = phone) :
    (createCustomer s ⟨some first, some last, some phone⟩).response
        = fail 400 "Phone number already exists"
    ∧ (createCustomer s ⟨some first, some last, some phone⟩).store = s
    ∧ UniquePhones (createCustomer s body).store ∧ UniqueIds (createCustomer s body).store
    ∧ UniquePhones (updateCustomer s id body).store
    ∧ UniqueIds (updateCustomer s id body).store := by
  have hc := createCustomer_preserves s body ⟨hids, hphones⟩
  have hu := updateCustomer_preserves s id body ⟨hids, hphones⟩
  refine ⟨?_, ?_, hc.2, hc.1, hu.2, hu.1⟩
  · rw [createCustomer_valid s first last phone h1 h2 h3, if_pos ((any_phone_iff _ _).2 hdup)]
  · rw [createCustomer_valid s first last phone h1 h2 h3, if_pos ((any_phone_iff _ _).2 hdup)]

/-- Witness for C6: creating Bob with Ann's phone number, and any request with Bob's
own body, on the one-customer store. -/
theorem phone_number_stays_unique_witness :
    UniqueIds oneCustomer ∧ UniquePhones oneCustomer
    ∧ (createCustomer oneCustomer ⟨some "Bob", some "Ray", some "1234567890"⟩).response
        = fail 400 "Phone number already exists"
    ∧ (createCustomer oneCustomer ⟨some "Bob", some "Ray", some "1234567890"⟩).store
        = oneCustomer
    ∧ UniquePhones (createCustomer oneCustomer bobBody).store
    ∧ UniqueIds (createCustomer oneCustomer bobBody).store
    ∧ UniquePhones (updateCustomer oneCustomer (.int 1) bobBody).store
    ∧ UniqueIds (updateCustomer oneCustomer (.int 1) bobBody).store :=
  ⟨by decide, by decide,
    phone_number_stays_unique oneCustomer (.int 1) bobBody "Bob" "Ray" "1234567890"
      (by decide) (by decide) (by decide) (by decide) (by decide) ⟨ann, by decide, rfl⟩⟩

/-! ## C7: requests on an id that matches no row -/

theorem filter_eq_nil_of_all_false {α : Type} (l : List α) (p : α → Bool)
    (h : ∀ a ∈ l, p a = false) : l.filter p = [] := by
  rw [List.filter_eq_nil_iff]
  intro a ha
  rw [h a ha]
  exact Bool.false_ne_true

theorem filter_not_eq_self {α : Type} (l : List α) (p : α → Bool)
    (h : ∀ a ∈ l, p a = false) : l.filter (fun a => !p a) = l := by
  rw [List.filter_eq_self]
  intro a ha
  rw [h a ha]
  rfl

theorem any_eq_false_of_all_false {α : Type} (l : List α) (p : α → Bool)
    (h : ∀ a ∈ l, p a = false) : l.any p = false := by
  rw [Bool.eq_false_iff]
  intro hany
  obtain ⟨a, ha, hp⟩ := List.any_eq_true.1 hany
  rw [h a ha] at hp
  cases hp

/-- C7: when the id matches no customer row, update customer (with a body that
passes the required-field check) and delete customer answer 404
`Customer not found`; when the id matches no address row, update address (with a
body that passes the check) and delete address answer 404 `Address not found`; in
all four cases the store is left as it was. -/
theorem missing_id_is_not_found (s : Store) (id addressId : UrlValue)
    (first last phone details city state pin : String)
    (hc : ∀ c ∈ s.customers, UrlValue.int c.id ≠ id)
    (ha : ∀ a ∈ s.addresses, UrlValue.int a.id ≠ addressId)
    (h1 : first ≠ "") (h2 : last ≠ "") (h3 : phone ≠ "")
    (h4 : details ≠ "") (h5 : city ≠ "") (h6 : state ≠ "") (h7 : pin ≠ "") :
    (updateCustomer s id ⟨some first, some last, some phone⟩).response
        = fail 404 "Customer not found"
    ∧ (updateCustomer s id ⟨some first, some last, some phone⟩).store = s
    ∧ (deleteCustomer s id).response = fail 404 "Customer not found"
    ∧ (deleteCustomer s id).store = s
    ∧ (updateAddress s addressId ⟨some details, some city, some state, some pin⟩).response
        = fail 404 "Address not found"
    ∧ (updateAddress s addressId ⟨some details, some city, some state, some pin⟩).store = s
    ∧ (deleteAddress s addressId).response = fail 404 "Address not found"
    ∧ (deleteAddress s addressId).store = s := by
  have hcm : ∀ c ∈ s.customers, idMatches c.id (some (Bound.js (.string id))) = false :=
    fun c h => idMatches_false_of_ne _ _ (hc c h)
  have ham : ∀ a ∈ s.addresses, idMatches a.id (some (Bound.js (.string addressId))) = false :=
    fun a h => idMatches_false_of_ne _ _ (ha a h)
  have hany := any_eq_false_of_all_false _ _ hcm
  have hanyA := any_eq_false_of_all_false _ _ ham
  have hdel : runDeleteCustomer db s [Bound.js (.string id)] = .ok (0, s) := by
    simp [runDeleteCustomer, filter_eq_nil_of_all_false _ _ hcm, filter_not_eq_self _ _ hcm, db]
  have hupdA : runUpdateAddress s [Bound.text details, Bound.text city, Bound.text state,
      Bound.text pin, Bound.js (.string addressId)] = .ok (0, s) := by
    simp [runUpdateAddress, hanyA]
  have hdelA : runDeleteAddress s [Bound.js (.string addressId)] = .ok (0, s) := by
    simp [runDeleteAddress, filter_eq_nil_of_all_false _ _ ham, filter_not_eq_self _ _ ham]
  rw [updateCustomer_valid s id first last phone h1 h2 h3]
  simp only [hany, Bool.false_eq_true, if_false, true_and]
  refine ⟨?_, ?_, ?_, ?_, ?_, ?_⟩
  · simp [deleteCustomer, hdel]
  · simp [deleteCustomer, hdel]
  · simp [updateAddress, falsy_some_eq_false _ h4, falsy_some_eq_false _ h5,
      falsy_some_eq_false _ h6, falsy_some_eq_false _ h7, fieldText, hupdA]
  · simp [updateAddress, falsy_some_eq_false _ h4, falsy_some_eq_false _ h5,
      falsy_some_eq_false _ h6, falsy_some_eq_false _ h7, fieldText, hupdA]
  · simp [deleteAddress, hdelA]
  · simp [deleteAddress, hdelA]

/-- Witness for C7: id 7 on a store whose only customer and only address have id 1. -/
theorem missing_id_is_not_found_witness :
    (updateCustomer annWithAddress (.int 7) ⟨some "Bob", some "Ray", some "5550002222"⟩).response
        = fail 404 "Customer not found"
    ∧ (updateCustomer annWithAddress (.int 7) ⟨some "Bob", some "Ray", some "5550002222"⟩).store
        = annWithAddress
    ∧ (deleteCustomer annWithAddress (.int 7)).response = fail 404 "Customer not found"
    ∧ (deleteCustomer annWithAddress (.int 7)).store = annWithAddress
    ∧ (updateAddress annWithAddress (.int 7)
          ⟨some "1 Main Road", some "Goa", some "GA", some "403001"⟩).response
        = fail 404 "Address not found"
    ∧ (updateAddress annWithAddress (.int 7)
          ⟨some "1 Main Road", some "Goa", some "GA", some "403001"⟩).store = annWithAddress
    ∧ (deleteAddress annWithAddress (.int 7)).response = fail 404 "Address not found"
    ∧ (deleteAddress annWithAddress (.int 7)).store = annWithAddress :=
  missing_id_is_not_found annWithAddress (.int 7) (.int 7) "Bob" "Ray" "5550002222"
    "1 Main Road" "Goa" "GA" "403001" (by decide) (by decide)
    (by decide) (by decide) (by decide) (by decide) (by decide) (by decide) (by decide)

/-! ## C8: deleting a customer and its addresses -/

/-- C8 (the code at the failing input): deleting customer 1 from a store that holds
customer 1 and one address with `customer_id` 1 succeeds and removes the customer,
and the address is still stored afterwards. -/
theorem deleteCustomer_leaves_addresses :
    (deleteCustomer annWithAddress (.int 1)).response
        = json (.message "Customer deleted successfully")
    ∧ (deleteCustomer annWithAddress (.int 1)).store.customers = []
    ∧ (deleteCustomer annWithAddress (.int 1)).store.addresses = [annAddress]
    ∧ refersTo annAddress 1 = true := by
  decide

/-! ## C9: the required-field check of create -/

/-- C9: create answers 400 `All fields are required` exactly when one of
`first_name`, `last_name`, `phone_number` is missing or the empty text; in that case
no statement is issued and the store is untouched; a value made of blanks only is
not empty and passes the check. -/
theorem createCustomer_required_fields (s : Store) (body : CustomerBody) :
    ((createCustomer s body).response = fail 400 "All fields are required" ↔
      (body.first_name = none ∨ body.first_name = some "")
        ∨ (body.last_name = none ∨ body.last_name = some "")
        ∨ (body.phone_number = none ∨ body.phone_number = some ""))
    ∧ ((createCustomer s body).response = fail 400 "All fields are required" →
        (createCustomer s body).issued = [] ∧ (createCustomer s body).store = s)
    ∧ (createCustomer s ⟨some " ", some "  ", some "\t"⟩).response
        ≠ fail 400 "All fields are required" := by
  have hvalid : ∀ first last phone : String, first ≠ "" → last ≠ "" → phone ≠ "" →
      (createCustomer s ⟨some first, some last, some phone⟩).response
        ≠ fail 400 "All fields are required" := by
    intro first last phone h1 h2 h3
    rw [createCustomer_valid s first last phone h1 h2 h3]
    split
    · simp only [fail, ne_eq, Response.mk.injEq, Payload.error.injEq, true_and]
      decide
    · simp [fail, json]
  refine ⟨?_, ?_, hvalid _ _ _ (by decide) (by decide) (by decide)⟩
  · rw [← falsy_eq_true_iff, ← falsy_eq_true_iff, ← falsy_eq_true_iff]
    rcases body_cases body with hbad | ⟨first, last, phone, h1, h2, h3, rfl⟩
    · rw [createCustomer_invalid s body hbad]
      simpa [or_assoc] using hbad
    · constructor
      · intro h
        exact absurd h (hvalid first last phone h1 h2 h3)
      · intro h
        simp [falsy_some_eq_false _ h1, falsy_some_eq_false _ h2,
          falsy_some_eq_false _ h3] at h
  · intro h
    rcases body_cases body with hbad | ⟨first, last, phone, h1, h2, h3, rfl⟩
    · rw [createCustomer_invalid s body hbad]
      exact ⟨rfl, rfl⟩
    · exact absurd h (hvalid first last phone h1 h2 h3)

/-! ## C10: create, then read -/

/-- C10: a create request with three non-empty fields and a phone number that is
not stored is answered with `data` made of the three submitted fields and an id
that is positive, larger than every id in the table and larger than every id
assigned before; reading that id afterwards returns the row with the same id and
the same three fields. -/
theorem createCustomer_then_read (s : Store) (first last phone : String)
    (h1 : first ≠ "") (h2 : last ≠ "") (h3 : phone ≠ "")
    (hnew : ∀ c ∈ s.customers, c.phone_number ≠ phone) :
    ∃ id : Nat,
      (createCustomer s ⟨some first, some last, some phone⟩).response
        = json (.customer "Customer created successfully"
            { id := id, first_name := first, last_name := last, phone_number := phone })
      ∧ 0 < id ∧ (∀ c ∈ s.customers, c.id < id) ∧ s.customerSeq < id
      ∧ (getCustomer (createCustomer s ⟨some first, some last, some phone⟩).store
            (UrlValue.int id)).response
        = json (.customer "Success"
            { id := id, first_name := first, last_name := last, phone_number := phone }) := by
  have hno : ¬ s.customers.any (fun c => c.phone_number == phone) = true := by
    rw [any_phone_iff]
    rintro ⟨c, hc, e⟩
    exact hnew c hc e
  refine ⟨nextId s.customerSeq (s.customers.map (fun c => c.id)), ?_, ?_,
    fun c hc => lt_nextId s c hc, ?_, ?_⟩
  · rw [createCustomer_valid s first last phone h1 h2 h3, if_neg hno]
    rfl
  · unfold nextId; omega
  · unfold nextId; omega
  · rw [createCustomer_valid s first last phone h1 h2 h3, if_neg hno]
    have hold : s.customers.find? (fun c =>
        decide (c.id = nextId s.customerSeq (s.customers.map (fun c => c.id)))) = none := by
      rw [List.find?_eq_none]
      intro c hc
      have := lt_nextId s c hc
      simp only [decide_eq_true_eq]
      omega
    simp [getCustomer, getCustomerById, List.find?_append, hold, newCustomer, idMatches_int]

/-- Witness for C10: creating Bob on the one-customer store and reading him back. -/
theorem createCustomer_then_read_witness :
    ∃ id : Nat,
      (createCustomer oneCustomer ⟨some "Bob", some "Ray", some "5550002222"⟩).response
        = json (.customer "Customer created successfully"
            { id := id, first_name := "Bob", last_name := "Ray", phone_number := "5550002222" })
      ∧ 0 < id ∧ (∀ c ∈ oneCustomer.customers, c.id < id) ∧ oneCustomer.customerSeq < id
      ∧ (getCustomer (createCustomer oneCustomer
            ⟨some "Bob", some "Ray", some "5550002222"⟩).store (UrlValue.int id)).response
        = json (.customer "Success"
            { id := id, first_name := "Bob", last_name := "Ray", phone_number := "5550002222" }) :=
  createCustomer_then_read oneCustomer "Bob" "Ray" "5550002222" (by decide) (by decide)
    (by decide) (by decide)

/-! ## C11: address search -/

theorem addressFilter_criteria (q : AddressQuery) :
    addressFilter
        { city := !falsy q.city, state := !falsy q.state, pin_code := !falsy q.pin_code }
        (criterionParams q.city ++ criterionParams q.state ++ criterionParams q.pin_code)
      = fun a => criterionLike q.city a.city && criterionLike q.state a.state
          && criterionLike q.pin_code a.pin_code := by
  funext a
  rcases q with ⟨city, state, pin⟩
  cases h1 : falsy city <;> cases h2 : falsy state <;> cases h3 : falsy pin <;>
    simp [addressFilter, criterionLike, criterionParams, Bound.asText, h1, h2, h3]

theorem searchAddresses_eq (s : Store) (q : AddressQuery) :
    searchAddresses s q =
      { response := json (.addressRows "Success"
          ((s.addresses.filter (fun a => criterionLike q.city a.city
              && criterionLike q.state a.state && criterionLike q.pin_code a.pin_code)).flatMap
            (fun a => (s.customers.filter (fun c => refersTo a c.id)).map
              (fun c => joinRow c a)))),
        store := s,
        issued := [(Sql.searchAddresses
          { city := !falsy q.city, state := !falsy q.state, pin_code := !falsy q.pin_code },
          criterionParams q.city ++ criterionParams q.state ++ criterionParams q.pin_code)] } := by
  rw [← addressFilter_criteria q]
  rcases q with ⟨city, state, pin⟩
  cases h1 : falsy city <;> cases h2 : falsy state <;> cases h3 : falsy pin <;>
    simp [searchAddresses, allAddressSearch, AddressSearch.placeholders,
      criterionParams, h1, h2, h3]

theorem criterionLike_iff (criterion : Option String) (field : String)
    (hw : ∀ a ∈ (fieldText criterion).data, a ≠ '%' ∧ a ≠ '_') :
    criterionLike criterion field = true ↔ criterionHolds criterion field := by
  unfold criterionLike criterionHolds
  rw [Bool.or_eq_true, like_pattern_iff field (fieldText criterion) hw]

theorem refersTo_iff (a : Address) (id : Nat) :
    refersTo a id = true ↔ a.customer_id = UrlValue.int id := by
  unfold refersTo
  exact beq_iff_eq

/-- C11 (as stated, refuted): the criterion `city=_` returns the address whose city
is `Pune`, a text that contains no underscore. -/
theorem searchAddresses_city_wildcard :
    (searchAddresses annWithAddress cityUnderscore).response
        = json (.addressRows "Success" [joinRow ann annAddress])
    ∧ annAddress.city = "Pune"
    ∧ ¬ containsIgnoringCase annAddress.city "_" := by
  decide

/-- C11 (amended): when no provided criterion contains `%` or `_`, the address
search returns exactly the addresses, joined with the customer their `customer_id`
refers to, whose city, state and pin_code each contain the respective provided
criterion as a substring up to the case of the ASCII letters; the statement carries
one `LIKE` condition and one `%value%` parameter for each provided non-empty
criterion, in the order city, state, pin_code, and none for an omitted one; with no
criteria every address that has an owning customer is returned. -/
theorem searchAddresses_exact (s : Store) (q : AddressQuery)
    (hcity : ∀ a ∈ (fieldText q.city).data, a ≠ '%' ∧ a ≠ '_')
    (hstate : ∀ a ∈ (fieldText q.state).data, a ≠ '%' ∧ a ≠ '_')
    (hpin : ∀ a ∈ (fieldText q.pin_code).data, a ≠ '%' ∧ a ≠ '_') :
    ∃ rows, (searchAddresses s q).response = json (.addressRows "Success" rows)
      ∧ (searchAddresses s q).issued = [(Sql.searchAddresses
          { city := !falsy q.city, state := !falsy q.state, pin_code := !falsy q.pin_code },
          (if falsy q.city then [] else [Bound.text ("%" ++ fieldText q.city ++ "%")])
            ++ (if falsy q.state then [] else [Bound.text ("%" ++ fieldText q.state ++ "%")])
            ++ (if falsy q.pin_code then []
                else [Bound.text ("%" ++ fieldText q.pin_code ++ "%")]))]
      ∧ (∀ r, r ∈ rows ↔ ∃ a ∈ s.addresses, ∃ c ∈ s.customers,
          a.customer_id = UrlValue.int c.id ∧ r = joinRow c a
          ∧ criterionHolds q.city a.city ∧ criterionHolds q.state a.state
          ∧ criterionHolds q.pin_code a.pin_code)
      ∧ (falsy q.city = true → falsy q.state = true → falsy q.pin_code = true →
          ∀ a ∈ s.addresses, ∀ c ∈ s.customers, a.customer_id = UrlValue.int c.id →
            joinRow c a ∈ rows) := by
  have hmem : ∀ r, r ∈ (s.addresses.filter (fun a => criterionLike q.city a.city
        && criterionLike q.state a.state && criterionLike q.pin_code a.pin_code)).flatMap
        (fun a => (s.customers.filter (fun c => refersTo a c.id)).map (fun c => joinRow c a))
      ↔ ∃ a ∈ s.addresses, ∃ c ∈ s.customers,
          a.customer_id = UrlValue.int c.id ∧ r = joinRow c a
          ∧ criterionHolds q.city a.city ∧ criterionHolds q.state a.state
          ∧ criterionHolds q.pin_code a.pin_code := by
    intro r
    simp only [List.mem_flatMap, List.mem_filter, List.mem_map, Bool.and_eq_true,
      criterionLike_iff _ _ hcity, criterionLike_iff _ _ hstate, criterionLike_iff _ _ hpin,
      refersTo_iff]
    constructor
    · rintro ⟨a, ⟨ha, ⟨h1, h2⟩, h3⟩, c, ⟨hc, href⟩, rfl⟩
      exact ⟨a, ha, c, hc, href, rfl, h1, h2, h3⟩
    · rintro ⟨a, ha, c, hc, href, rfl, h1, h2, h3⟩
      exact ⟨a, ⟨ha, ⟨h1, h2⟩, h3⟩, c, ⟨hc, href⟩, rfl⟩
  rw [searchAddresses_eq]
  refine ⟨_, rfl, rfl, hmem, ?_⟩
  intro h1 h2 h3 a ha c hc href
  exact (hmem _).2 ⟨a, ha, c, hc, href, rfl, Or.inl h1, Or.inl h2, Or.inl h3⟩

/-- Witness for C11 (amended): searching `city=pun` on the store of Ann and her
address in Pune. -/
theorem searchAddresses_exact_witness :
    ∃ rows, (searchAddresses annWithAddress cityPun).response
        = json (.addressRows "Success" rows)
      ∧ (∀ r, r ∈ rows ↔ ∃ a ∈ annWithAddress.addresses, ∃ c ∈ annWithAddress.customers,
          a.customer_id = UrlValue.int c.id ∧ r = joinRow c a
          ∧ criterionHolds cityPun.city a.city ∧ criterionHolds cityPun.state a.state
          ∧ criterionHolds cityPun.pin_code a.pin_code) := by
  obtain ⟨rows, h1, _, h3, _⟩ :=
    searchAddresses_exact annWithAddress cityPun (by decide) (by decide) (by decide)
  exact ⟨rows, h1, h3⟩

/-! ## C12: routes of the server and requests of the client -/

theorem dispatch_documented (r : Route) (hr : r ∈ documentedSurface) (path : List String)
    (hpath : pathAccepts r.path path = true) :
    dispatch r.method ("api" :: path) = some r.handler ∧ dispatch r.method path = none := by
  simp only [documentedSurface, List.mem_cons, List.mem_singleton, List.not_mem_nil,
    or_false] at hr
  rcases hr with rfl | rfl | rfl | rfl | rfl | rfl | rfl | rfl | rfl | rfl <;>
    rcases path with _ | ⟨a, _ | ⟨b, _ | ⟨c, _ | ⟨d, rest⟩⟩⟩⟩ <;>
    simp [pathAccepts, Segment.accepts] at hpath <;>
    (try casesm* _ ∧ _) <;>
    subst_vars <;>
    simp [dispatch, routes, pathAccepts, Segment.accepts, *]

theorem clientCall_documented (call : ClientCall)
    (hid : ∀ id, call.id? = some id → id ≠ "") :
    ∃ r ∈ documentedSurface, r.method = call.request.1
      ∧ pathAccepts r.path call.request.2 = true ∧ r.handler = call.target := by
  have hne : ∀ id : String, id ≠ "" → id.data.isEmpty = false := by
    intro id h
    cases id with
    | mk d =>
      cases d with
      | nil => exact absurd rfl h
      | cons a d => rfl
  cases call with
  | formFetchCustomer id | handleSubmitEdit id | fetchCustomerDetails id | fetchAddresses id
  | handleDeleteCustomer id | handleAddAddress id | handleDeleteAddress id | handleDelete id =>
    have h := hne id (hid id rfl)
    simp [documentedSurface, ClientCall.request, ClientCall.target, pathAccepts,
      Segment.accepts, h]
  | handleSubmitCreate | fetchCustomers =>
    simp [documentedSurface, ClientCall.request, ClientCall.target, pathAccepts,
      Segment.accepts]

/-- C12 (as stated, refuted): the server registers no route for the documented pairs
`POST /customers`, `GET /customers`, `GET /customers/1`, `DELETE /addresses/1` and
`GET /addresses/search`, and `POST /customers` is what the customer form requests
on create. -/
theorem dispatch_unprefixed_is_unmatched :
    dispatch Method.POST ["customers"] = none
    ∧ dispatch Method.GET ["customers"] = none
    ∧ dispatch Method.GET ["customers", "1"] = none
    ∧ dispatch Method.DELETE ["addresses", "1"] = none
    ∧ dispatch Method.GET ["addresses", "search"] = none
    ∧ ClientCall.handleSubmitCreate.request = (Method.POST, ["customers"]) := by
  decide

/-- C12 (amended): every server route lives under the prefix `/api`.  Each
(method, path) pair of the documented surface, with `/api` put in front of the path,
is matched by the server route of the corresponding handler; each request of the
client views names a (method, path) pair of the documented surface, and with `/api`
put in front of its path it is dispatched to the handler it is meant for. -/
theorem dispatch_under_api (r : Route) (path : List String) (call : ClientCall)
    (hr : r ∈ documentedSurface) (hpath : pathAccepts r.path path = true)
    (hid : ∀ id, call.id? = some id → id ≠ "") :
    dispatch r.method ("api" :: path) = some r.handler
    ∧ (∃ r' ∈ documentedSurface, r'.method = call.request.1
        ∧ pathAccepts r'.path call.request.2 = true ∧ r'.handler = call.target)
    ∧ dispatch call.request.1 ("api" :: call.request.2) = some call.target
    ∧ (∀ route ∈ routes, route.path.head? = some (Segment.lit "api")) := by
  refine ⟨(dispatch_documented r hr path hpath).1, clientCall_documented call hid, ?_, ?_⟩
  · obtain ⟨r', hr', hm, hp, hh⟩ := clientCall_documented call hid
    rw [← hm, ← hh]
    exact (dispatch_documented r' hr' _ hp).1
  · decide

/-- Witness for C12 (amended): the documented `PUT /customers/:id` on the path
`/customers/7`, and the edit form's submit for customer 7. -/
theorem dispatch_under_api_witness :
    dispatch Method.PUT ["api", "customers", "7"] = some Handler.updateCustomer
    ∧ dispatch (ClientCall.handleSubmitEdit "7").request.1
        ("api" :: (ClientCall.handleSubmitEdit "7").request.2)
      = some (ClientCall.handleSubmitEdit "7").target :=
  have h := dispatch_under_api
    { method := .PUT, path := [.lit "customers", .param "id"], handler := .updateCustomer }
    ["customers", "7"] (ClientCall.handleSubmitEdit "7") (by decide) (by decide)
    (by intro id h; cases h; decide)
  ⟨h.1, h.2.2.1⟩

/-! ## C13: the outcomes of update customer -/

theorem idMatches_iff (id : Nat) (u : UrlValue) :
    idMatches id (some (Bound.js (.string u))) = true ↔ UrlValue.int id = u := by
  cases u with
  | int i =>
    rw [idMatches_int, decide_eq_true_eq]
    constructor
    · intro h; rw [h]
    · intro h; injection h
  | nonNumeric t =>
    constructor
    · intro h; cases h
    · intro h; cases h

/-- C13: update customer decides its outcome in this order.  A missing or empty
field gives 400 `All fields are required` with no statement issued.  Otherwise, when
the id matches a row and another customer holds the new phone number, 400
`Phone number already exists`.  Otherwise, when the id matches no row, 404
`Customer not found`, whether or not the phone number is taken.  Otherwise success:
the rows with that id get the three new fields, ids and all other rows stay as they
are.  Every failure leaves the store as it was, and updating a customer to the phone
number it already has succeeds. -/
theorem updateCustomer_outcomes (s : Store) (id : UrlValue) (body : CustomerBody)
    (first last phone : String) (h1 : first ≠ "") (h2 : last ≠ "") (h3 : phone ≠ "") :
    (((body.first_name = none ∨ body.first_name = some "")
        ∨ (body.last_name = none ∨ body.last_name = some "")
        ∨ (body.phone_number = none ∨ body.phone_number = some "")) →
      updateCustomer s id body
        = { response := fail 400 "All fields are required", store := s, issued := [] })
    ∧ ((∃ c ∈ s.customers, UrlValue.int c.id = id) →
        (∃ d ∈ s.customers, UrlValue.int d.id ≠ id ∧ d.phone_number = phone) →
        (updateCustomer s id ⟨some first, some last, some phone⟩).response
            = fail 400 "Phone number already exists"
          ∧ (updateCustomer s id ⟨some first, some last, some phone⟩).store = s)
    ∧ ((∀ c ∈ s.customers, UrlValue.int c.id ≠ id) →
        (updateCustomer s id ⟨some first, some last, some phone⟩).response
            = fail 404 "Customer not found"
          ∧ (updateCustomer s id ⟨some first, some last, some phone⟩).store = s)
    ∧ ((∃ c ∈ s.customers, UrlValue.int c.id = id) →
        (∀ d ∈ s.customers, UrlValue.int d.id ≠ id → d.phone_number ≠ phone) →
        (updateCustomer s id ⟨some first, some last, some phone⟩).response
            = json (.message "Customer updated successfully")
          ∧ (updateCustomer s id ⟨some first, some last, some phone⟩).store
            = { s with customers := s.customers.map (fun c =>
                  if UrlValue.int c.id = id then
                    { c with first_name := first, last_name := last, phone_number := phone }
                  else c) }
          ∧ (updateCustomer s id ⟨some first, some last, some phone⟩).store.customers.map
              (fun c => c.id) = s.customers.map (fun c => c.id))
    ∧ (UniquePhones s → ∀ c ∈ s.customers, UrlValue.int c.id = id → c.phone_number = phone →
        (updateCustomer s id ⟨some first, some last, some phone⟩).response
          = json (.message "Customer updated successfully")) := by
  have hany : s.customers.any (fun c => idMatches c.id (some (Bound.js (.string id)))) = true
      ↔ ∃ c ∈ s.customers, UrlValue.int c.id = id := by
    simp [List.any_eq_true, idMatches_iff]
  have hdup : s.customers.any (fun c =>
        !idMatches c.id (some (Bound.js (.string id))) && c.phone_number == phone) = true
      ↔ ∃ d ∈ s.customers, UrlValue.int d.id ≠ id ∧ d.phone_number = phone := by
    simp only [List.any_eq_true, Bool.and_eq_true, Bool.not_eq_true', beq_iff_eq]
    constructor
    · rintro ⟨d, hd, hm, hp⟩
      exact ⟨d, hd, fun e => (by rw [(idMatches_iff _ _).2 e] at hm; cases hm), hp⟩
    · rintro ⟨d, hd, hm, hp⟩
      refine ⟨d, hd, ?_, hp⟩
      rw [Bool.eq_false_iff]
      exact fun e => hm ((idMatches_iff _ _).1 e)
  have hsuccess : (∃ c ∈ s.customers, UrlValue.int c.id = id) →
      (∀ d ∈ s.customers, UrlValue.int d.id ≠ id → d.phone_number ≠ phone) →
      updateCustomer s id ⟨some first, some last, some phone⟩ =
        { response := json (.message "Customer updated successfully"),
          store := { s with customers := s.customers.map (fun c =>
            if UrlValue.int c.id = id then
              { c with first_name := first, last_name := last, phone_number := phone }
            else c) },
          issued := [(Sql.updateCustomer, [Bound.text first, Bound.text last,
            Bound.text phone, Bound.js (.string id)])] } := by
    intro hex hfree
    have hnd : ¬ s.customers.any (fun c =>
        !idMatches c.id (some (Bound.js (.string id))) && c.phone_number == phone) = true := by
      rw [hdup]
      rintro ⟨d, hd, hm, hp⟩
      exact hfree d hd hm hp
    rw [updateCustomer_valid s id first last phone h1 h2 h3, if_pos (hany.2 hex), if_neg hnd]
    congr 2
    apply List.map_congr_left
    intro c _
    by_cases hc : UrlValue.int c.id = id
    · rw [if_pos hc, if_pos ((idMatches_iff _ _).2 hc)]
    · rw [if_neg hc, if_neg (fun e => hc ((idMatches_iff _ _).1 e))]
  refine ⟨?_, ?_, ?_, ?_, ?_⟩
  · intro hbad
    apply updateCustomer_invalid
    rw [← falsy_eq_true_iff, ← falsy_eq_true_iff, ← falsy_eq_true_iff] at hbad
    simpa [or_assoc] using hbad
  · intro hex htaken
    rw [updateCustomer_valid s id first last phone h1 h2 h3, if_pos (hany.2 hex),
      if_pos (hdup.2 htaken)]
    exact ⟨rfl, rfl⟩
  · intro hnone
    have : ¬ s.customers.any (fun c =>
        idMatches c.id (some (Bound.js (.string id)))) = true := by
      rw [hany]
      rintro ⟨c, hc, e⟩
      exact hnone c hc e
    rw [updateCustomer_valid s id first last phone h1 h2 h3, if_neg this]
    exact ⟨rfl, rfl⟩
  · intro hex hfree
    rw [hsuccess hex hfree]
    refine ⟨rfl, rfl, ?_⟩
    simp only [List.map_map]
    apply List.map_congr_left
    intro c _
    simp only [Function.comp]
    split <;> rfl
  · intro huniq c hc hid hphone
    rw [hsuccess ⟨c, hc, hid⟩]
    intro d hd hne e
    have hcd : c = d :=
      List.inj_on_of_nodup_map huniq hc hd (by rw [hphone, e])
    exact hne (by rw [← hcd]; exact hid)

/-- Witness for C13: on the store of Ann (id 1) and Bob (id 2), with Ann's own phone
number as the new one: updating id 1 succeeds, updating id 2 is a duplicate, and
updating id 9 is not found. -/
theorem updateCustomer_outcomes_witness :
    (updateCustomer twoCustomers (.int 1)
        ⟨some "Anna", some "Lee", some "1234567890"⟩).response
      = json (.message "Customer updated successfully")
    ∧ (updateCustomer twoCustomers (.int 2)
        ⟨some "Anna", some "Lee", some "1234567890"⟩).response
      = fail 400 "Phone number already exists"
    ∧ (updateCustomer twoCustomers (.int 9)
        ⟨some "Anna", some "Lee", some "1234567890"⟩).response
      = fail 404 "Customer not found" :=
  ⟨(updateCustomer_outcomes twoCustomers (.int 1) bobBody "Anna" "Lee" "1234567890"
      (by decide) (by decide) (by decide)).2.2.2.2 (by decide) ann (by decide) rfl rfl,
   ((updateCustomer_outcomes twoCustomers (.int 2) bobBody "Anna" "Lee" "1234567890"
      (by decide) (by decide) (by decide)).2.1 ⟨bob, by decide, rfl⟩
      ⟨ann, by decide, by decide, rfl⟩).1,
   ((updateCustomer_outcomes twoCustomers (.int 9) bobBody "Anna" "Lee" "1234567890"
      (by decide) (by decide) (by decide)).2.2.1 (by decide)).1⟩

/-! ## C14: validation in the client and in the server -/

theorem all_dropWhile_iff (p : Char → Bool) (l : List Char) :
    (∀ x ∈ l.dropWhile p, p x = true) ↔ ∀ x ∈ l, p x = true := by
  induction l with
  | nil => simp
  | cons a l ih =>
    by_cases ha : p a = true
    · rw [List.dropWhile_cons_of_pos ha, ih]
      simp [ha]
    · rw [List.dropWhile_cons_of_neg ha]

theorem trimChars_eq_nil_iff (l : List Char) :
    trimChars l = [] ↔ ∀ x ∈ l, isTrimmed x = true := by
  unfold trimChars
  rw [List.reverse_eq_nil_iff, List.dropWhile_eq_nil_iff]
  simp only [List.mem_reverse]
  exact all_dropWhile_iff isTrimmed l

theorem isEmptyText_trim_eq_false_iff (x : String) :
    isEmptyText (trim x) = false ↔ ∃ c ∈ x.data, isTrimmed c = false := by
  unfold isEmptyText trim
  rw [← Bool.not_eq_true, List.isEmpty_iff, trimChars_eq_nil_iff]
  simp

theorem ne_empty_of_trim (x : String) (h : isEmptyText (trim x) = false) : x ≠ "" := by
  obtain ⟨c, hc, _⟩ := (isEmptyText_trim_eq_false_iff x).1 h
  intro e
  rw [e] at hc
  cases hc

theorem validateForm_accepts_iff (formData : CustomerForm) :
    (validateForm formData).2 = true ↔
      isEmptyText (trim formData.first_name) = false
        ∧ isEmptyText (trim formData.last_name) = false
        ∧ isEmptyText (trim formData.phone_number) = false
        ∧ tenDigits formData.phone_number = true := by
  unfold validateForm
  cases isEmptyText (trim formData.first_name) <;>
    cases isEmptyText (trim formData.last_name) <;>
    cases isEmptyText (trim formData.phone_number) <;>
    cases tenDigits formData.phone_number <;> simp

theorem validateAddressForm_accepts_iff (addressForm : AddressForm) :
    (validateAddressForm addressForm).2 = true ↔
      isEmptyText (trim addressForm.address_details) = false
        ∧ isEmptyText (trim addressForm.city) = false
        ∧ isEmptyText (trim addressForm.state) = false
        ∧ isEmptyText (trim addressForm.pin_code) = false := by
  unfold validateAddressForm
  cases isEmptyText (trim addressForm.address_details) <;>
    cases isEmptyText (trim addressForm.city) <;>
    cases isEmptyText (trim addressForm.state) <;>
    cases isEmptyText (trim addressForm.pin_code) <;> simp

theorem addAddress_valid (s : Store) (id : UrlValue) (details city state pin : String)
    (h1 : details ≠ "") (h2 : city ≠ "") (h3 : state ≠ "") (h4 : pin ≠ "") :
    (addAddress s id ⟨some details, some city, some state, some pin⟩).response =
      json (.address "Address added successfully"
        { id := nextId s.addressSeq (s.addresses.map (fun a => a.id)), customer_id := id,
          address_details := details, city := city, state := state, pin_code := pin }) := by
  simp [addAddress, falsy_some_eq_false _ h1, falsy_some_eq_false _ h2,
    falsy_some_eq_false _ h3, falsy_some_eq_false _ h4, fieldText, runInsertAddress,
    Bound.asReference, Bound.asText, db]

theorem updateAddress_valid (s : Store) (id : UrlValue) (details city state pin : String)
    (h1 : details ≠ "") (h2 : city ≠ "") (h3 : state ≠ "") (h4 : pin ≠ "") :
    (updateAddress s id ⟨some details, some city, some state, some pin⟩).response
        = fail 404 "Address not found"
    ∨ (updateAddress s id ⟨some details, some city, some state, some pin⟩).response
        = json (.message "Address updated successfully") := by
  by_cases hhit : s.addresses.any (fun a => idMatches a.id (some (Bound.js (.string id)))) = true
  · right
    have hpos := length_filter_pos_of_any _ _ hhit
    simp [updateAddress, falsy_some_eq_false _ h1, falsy_some_eq_false _ h2,
      falsy_some_eq_false _ h3, falsy_some_eq_false _ h4, fieldText, runUpdateAddress,
      Bound.asText, hhit, hpos]
  · left
    simp [updateAddress, falsy_some_eq_false _ h1, falsy_some_eq_false _ h2,
      falsy_some_eq_false _ h3, falsy_some_eq_false _ h4, fieldText, runUpdateAddress,
      Bound.asText, hhit]

/-- C14 (as stated, refuted): the form Ann / Lee / `123` and the form with a blank
first name are rejected by `validateForm`, while the server's required-field check
accepts both bodies and creates the customers. -/
theorem validateForm_stricter_than_server :
    (validateForm shortPhoneForm).2 = false
    ∧ (createCustomer emptyStore shortPhoneForm.toBody).response
        = json (.customer "Customer created successfully"
            { id := 1, first_name := "Ann", last_name := "Lee", phone_number := "123" })
    ∧ (validateForm blankNameForm).2 = false
    ∧ (createCustomer emptyStore blankNameForm.toBody).response
        = json (.customer "Customer created successfully"
            { id := 1, first_name := "  ", last_name := "Lee", phone_number := "5550003333" }) := by
  decide

/-- C14 (amended): `validateForm` returns true exactly when first and last name have
a character that `trim` keeps and the phone number is ten ASCII digits; every form it
accepts passes the required-field check of create and of update customer, and every
address form accepted by `validateAddressForm` passes the required-field check of
add and of update address.  The converse does not hold: the server checks only for
missing and empty fields. -/
theorem client_validation_implies_server_check (formData : CustomerForm)
    (addressForm : AddressForm) (s : Store) (id addressId : UrlValue) :
    ((validateForm formData).2 = true ↔
      (∃ c ∈ formData.first_name.data, isTrimmed c = false)
        ∧ (∃ c ∈ formData.last_name.data, isTrimmed c = false)
        ∧ formData.phone_number.data.length = 10
        ∧ ∀ c ∈ formData.phone_number.data, c.isDigit = true)
    ∧ ((validateForm formData).2 = true →
        (createCustomer s formData.toBody).response ≠ fail 400 "All fields are required"
        ∧ (updateCustomer s id formData.toBody).response
            ≠ fail 400 "All fields are required")
    ∧ ((validateAddressForm addressForm).2 = true →
        (addAddress s id addressForm.toBody).response
            ≠ fail 400 "All address fields are required"
        ∧ (updateAddress s addressId addressForm.toBody).response
            ≠ fail 400 "All address fields are required") := by
  refine ⟨?_, ?_, ?_⟩
  · rw [validateForm_accepts_iff, isEmptyText_trim_eq_false_iff, isEmptyText_trim_eq_false_iff,
      isEmptyText_trim_eq_false_iff]
    simp only [tenDigits, Bool.and_eq_true, beq_iff_eq, List.all_eq_true]
    constructor
    · rintro ⟨hf, hl, _, hlen, hdig⟩
      exact ⟨hf, hl, hlen, hdig⟩
    · rintro ⟨hf, hl, hlen, hdig⟩
      refine ⟨hf, hl, ?_, hlen, hdig⟩
      cases hd : formData.phone_number.data with
      | nil => rw [hd] at hlen; cases hlen
      | cons c rest =>
        refine ⟨c, List.mem_cons_self _ _, ?_⟩
        have := hdig c (by rw [hd]; exact List.mem_cons_self _ _)
        revert this
        simp only [Char.isDigit, isTrimmed, Bool.and_eq_true, decide_eq_true_eq,
          decide_eq_false_iff_not, List.mem_cons, List.mem_singleton, List.not_mem_nil,
          or_false, not_or]
        intro h
        have h48 : 48 ≤ c.toNat := h.1
        have h57 : c.toNat ≤ 57 := h.2
        omega
  · intro h
    rw [validateForm_accepts_iff] at h
    obtain ⟨hf, hl, hp, _⟩ := h
    have h1 := ne_empty_of_trim _ hf
    have h2 := ne_empty_of_trim _ hl
    have h3 := ne_empty_of_trim _ hp
    unfold CustomerForm.toBody
    constructor
    · rw [createCustomer_valid s _ _ _ h1 h2 h3]
      split
      · simp only [fail, ne_eq, Response.mk.injEq, Payload.error.injEq, true_and]
        decide
      · simp [fail, json]
    · rw [updateCustomer_valid s id _ _ _ h1 h2 h3]
      split
      · split
        · simp only [fail, ne_eq, Response.mk.injEq, Payload.error.injEq, true_and]
          decide
        · simp [fail, json]
      · simp [fail]
  · intro h
    rw [validateAddressForm_accepts_iff] at h
    obtain ⟨ha, hc, hs, hp⟩ := h
    have h1 := ne_empty_of_trim _ ha
    have h2 := ne_empty_of_trim _ hc
    have h3 := ne_empty_of_trim _ hs
    have h4 := ne_empty_of_trim _ hp
    unfold AddressForm.toBody
    constructor
    · rw [addAddress_valid s id _ _ _ _ h1 h2 h3 h4]
      simp [fail, json]
    · rcases updateAddress_valid s addressId _ _ _ _ h1 h2 h3 h4 with h | h <;> rw [h] <;>
        simp [fail, json]

/-- Witness for C14 (amended): the form Ann / Lee / `1234567890` and the address form
of Pune pass the client validation and the server checks. -/
theorem client_validation_implies_server_check_witness :
    (validateForm annForm).2 = true
    ∧ (createCustomer emptyStore annForm.toBody).response
        ≠ fail 400 "All fields are required"
    ∧ (validateAddressForm puneForm).2 = true
    ∧ (addAddress emptyStore (.int 1) puneForm.toBody).response
        ≠ fail 400 "All address fields are required" :=
  have h := client_validation_implies_server_check annForm puneForm emptyStore (.int 1) (.int 1)
  ⟨by decide, (h.2.1 (by decide)).1, by decide, (h.2.2 (by decide)).1⟩

end Qwipo
